import Mathlib

/-!
Shallow embedding of the core contracts of the decentralized charity platform:
`NGOGovernance` (contracts/NGOGovernance.sol), and the `NGORegistry`,
`SoulboundToken` and `CampaignFactory` contracts found in the repository's
concatenated sources.  Solidity mappings become total functions with the
zero-initialised default value, `uint256` amounts become `Int` (the checked
arithmetic of Solidity 0.8 never wraps; every subtraction in the source is
guarded, so overflow is immaterial at the values the contracts handle),
`block.timestamp` is an explicit `now : Nat` argument, `msg.sender` an explicit
`caller` argument, and every external function returns `Except Err _`, failing
exactly where the source `require`s fail, in source order.  Role membership
(`AccessControl`) is a boolean map per role held in each contract's state.
-/

namespace Charity

/-- Account addresses; `0` is the zero address. -/
abbrev Addr := Nat

/-- Error kinds, following the spec's taxonomy (validation, authorization,
state, temporal, resource); each revert in the source is classified by the
condition it guards. -/
inductive ErrKind
  | validation
  | authorization
  | state
  | temporal
  | resource
  deriving DecidableEq, Repr

/-- A failure: its kind and the revert string from the source. -/
structure Err where
  kind : ErrKind
  msg : String
  deriving DecidableEq, Repr

/-- Pointwise update of a Solidity mapping modelled as a total function. -/
def upd {κ α : Type} [DecidableEq κ] (f : κ → α) (k : κ) (v : α) : κ → α :=
  fun q => if q = k then v else f q

theorem upd_same {κ α : Type} [DecidableEq κ] (f : κ → α) (k : κ) (v : α) :
    upd f k v k = v := by
  simp [upd]

theorem upd_other {κ α : Type} [DecidableEq κ] (f : κ → α) {k q : κ} (v : α)
    (h : q ≠ k) : upd f k v q = f q := by
  simp [upd, h]

/-! ## NGOGovernance (contracts/NGOGovernance.sol) -/

inductive ProposalType
  | Verification
  | Challenge
  deriving DecidableEq, Repr

inductive VoteType
  | Upvote
  | Downvote
  deriving DecidableEq, Repr

structure Vote where
  hasVoted : Bool
  voteType : VoteType
  votingPower : Int
  reputationStake : Int
  deriving DecidableEq, Repr

/-- Zero value of a `Vote` (Solidity mapping default). -/
def Vote.zero : Vote := ⟨false, .Upvote, 0, 0⟩

structure Proposal where
  proposalId : Nat
  ngoId : Nat
  proposalType : ProposalType
  proposer : Addr
  description : String
  evidenceHash : String
  startTime : Nat
  endTime : Nat
  upvotes : Int
  downvotes : Int
  totalVotingPower : Int
  executed : Bool
  votes : Addr → Vote

/-- Zero value of a `Proposal` (Solidity mapping default). -/
def Proposal.zero : Proposal :=
  ⟨0, 0, .Verification, 0, "", "", 0, 0, 0, 0, 0, false, fun _ => Vote.zero⟩

structure UserReputation where
  score : Int
  totalProposals : Int
  successfulVerifications : Int
  successfulChallenges : Int
  lastActivity : Nat
  deriving DecidableEq, Repr

/-- Zero value of a `UserReputation` (Solidity mapping default). -/
def UserReputation.zero : UserReputation := ⟨0, 0, 0, 0, 0⟩

/-- Storage of the `NGOGovernance` contract. -/
structure GovState where
  proposals : Nat → Proposal
  userReputations : Addr → UserReputation
  ngoVerificationProposals : Nat → Nat
  ngoChallenges : Nat → List Nat
  proposalIdCounter : Nat
  admins : Addr → Bool

namespace NGOGovernance

def VOTING_DURATION : Nat := 7 * 24 * 60 * 60

def MIN_REPUTATION_TO_VOTE : Int := 100

def VOTE_WEIGHT_BASE : Int := 100

def REPUTATION_CHANGE_PER_VOTE : Int := 10

/-- Source `_calculateVotingPower`: `rep.score * VOTE_WEIGHT_BASE / 1000`. -/
def calculateVotingPower (st : GovState) (voter : Addr) : Int :=
  (st.userReputations voter).score * VOTE_WEIGHT_BASE / 1000

/-- Source `_castVote` (internal). -/
def castVoteInternal (st : GovState) (proposalId : Nat) (voteType : VoteType)
    (voter : Addr) (now : Nat) : Except Err GovState :=
  let proposal := st.proposals proposalId
  if ¬ (now ≤ proposal.endTime) then .error ⟨.temporal, "Voting ended"⟩
  else if (proposal.votes voter).hasVoted then .error ⟨.state, "Already voted"⟩
  else
    let votingPower := calculateVotingPower st voter
    let p1 := { proposal with
      votes := upd proposal.votes voter ⟨true, voteType, votingPower, REPUTATION_CHANGE_PER_VOTE⟩ }
    let p2 :=
      if voteType = .Upvote then { p1 with upvotes := p1.upvotes + votingPower }
      else { p1 with downvotes := p1.downvotes + votingPower }
    let p3 := { p2 with totalVotingPower := p2.totalVotingPower + votingPower }
    .ok { st with proposals := upd st.proposals proposalId p3 }

/-- Source `castVote` (external). -/
def castVote (st : GovState) (caller : Addr) (proposalId : Nat)
    (voteType : VoteType) (now : Nat) : Except Err GovState :=
  if ¬ (MIN_REPUTATION_TO_VOTE ≤ (st.userReputations caller).score) then
    .error ⟨.authorization, "Insufficient reputation"⟩
  else castVoteInternal st proposalId voteType caller now

/-- Source `createVerificationProposal`.  Only the listed fields of the fresh
proposal are assigned; the rest keep their stored (default) values. -/
def createVerificationProposal (st : GovState) (caller : Addr) (ngoId : Nat)
    (description evidenceHash : String) (now : Nat) :
    Except Err (GovState × Nat) :=
  if st.ngoVerificationProposals ngoId ≠ 0 then
    .error ⟨.state, "Proposal already exists"⟩
  else if ¬ (MIN_REPUTATION_TO_VOTE ≤ (st.userReputations caller).score) then
    .error ⟨.authorization, "Insufficient reputation"⟩
  else
    let proposalId := st.proposalIdCounter + 1
    let proposal := { st.proposals proposalId with
      proposalId := proposalId
      ngoId := ngoId
      proposalType := ProposalType.Verification
      proposer := caller
      description := description
      evidenceHash := evidenceHash
      startTime := now
      endTime := now + VOTING_DURATION }
    let st2 := { st with
      proposalIdCounter := proposalId
      proposals := upd st.proposals proposalId proposal
      ngoVerificationProposals := upd st.ngoVerificationProposals ngoId proposalId }
    match castVoteInternal st2 proposalId .Upvote caller now with
    | .error e => .error e
    | .ok st3 => .ok (st3, proposalId)

/-- Source `challengeNGO`. -/
def challengeNGO (st : GovState) (caller : Addr) (ngoId : Nat)
    (description evidenceHash : String) (now : Nat) :
    Except Err (GovState × Nat) :=
  if ¬ (MIN_REPUTATION_TO_VOTE ≤ (st.userReputations caller).score) then
    .error ⟨.authorization, "Insufficient reputation"⟩
  else
    let proposalId := st.proposalIdCounter + 1
    let proposal := { st.proposals proposalId with
      proposalId := proposalId
      ngoId := ngoId
      proposalType := ProposalType.Challenge
      proposer := caller
      description := description
      evidenceHash := evidenceHash
      startTime := now
      endTime := now + VOTING_DURATION }
    let st2 := { st with
      proposalIdCounter := proposalId
      proposals := upd st.proposals proposalId proposal
      ngoChallenges := upd st.ngoChallenges ngoId (st.ngoChallenges ngoId ++ [proposalId]) }
    match castVoteInternal st2 proposalId .Downvote caller now with
    | .error e => .error e
    | .ok st3 => .ok (st3, proposalId)

/-- Source `_updateReputationForSuccess`.  The source's for-loop over voters
performs no state change (its body is empty) and is therefore omitted. -/
def updateReputationForSuccess (st : GovState) (proposalId : Nat)
    (isVerification : Bool) : GovState :=
  let proposal := st.proposals proposalId
  let r := st.userReputations proposal.proposer
  let r2 := { r with
    score := r.score + REPUTATION_CHANGE_PER_VOTE * 2
    successfulVerifications := r.successfulVerifications + (if isVerification then 1 else 0)
    successfulChallenges := r.successfulChallenges + (if isVerification then 0 else 1) }
  { st with userReputations := upd st.userReputations proposal.proposer r2 }

/-- Source `_updateReputationForFailure`: the proposer's score is decremented
only when it strictly exceeds `REPUTATION_CHANGE_PER_VOTE`. -/
def updateReputationForFailure (st : GovState) (proposalId : Nat) : GovState :=
  let proposal := st.proposals proposalId
  let r := st.userReputations proposal.proposer
  if REPUTATION_CHANGE_PER_VOTE < r.score then
    let r2 := { r with score := r.score - REPUTATION_CHANGE_PER_VOTE }
    { st with userReputations := upd st.userReputations proposal.proposer r2 }
  else st

/-- Source `executeProposal`. -/
def executeProposal (st : GovState) (proposalId : Nat) (now : Nat) :
    Except Err GovState :=
  let proposal := st.proposals proposalId
  if ¬ (proposal.endTime < now) then .error ⟨.temporal, "Voting not ended"⟩
  else if proposal.executed then .error ⟨.state, "Already executed"⟩
  else
    let st2 := { st with
      proposals := upd st.proposals proposalId { proposal with executed := true } }
    let passed := proposal.downvotes < proposal.upvotes
    if passed then
      if proposal.proposalType = .Verification then
        .ok (updateReputationForSuccess st2 proposalId true)
      else
        .ok (updateReputationForSuccess st2 proposalId false)
    else
      .ok (updateReputationForFailure st2 proposalId)

/-- Source `initializeReputation`. -/
def initializeReputation (st : GovState) (caller user : Addr) (now : Nat) :
    Except Err GovState :=
  if ¬ st.admins caller then
    .error ⟨.authorization, "missing role ADMIN_ROLE"⟩
  else if (st.userReputations user).score ≠ 0 then
    .error ⟨.state, "Reputation already initialized"⟩
  else
    .ok { st with userReputations := upd st.userReputations user ⟨500, 0, 0, 0, now⟩ }

end NGOGovernance

/-! ## NGORegistry -/

inductive NGOStatus
  | Pending
  | Verified
  | Rejected
  | Suspended
  | Blacklisted
  deriving DecidableEq, Repr

structure NGO where
  ngoId : Nat
  ngoAddress : Addr
  name : String
  registrationNumber : String
  country : String
  category : String
  kycDocumentHash : String
  registeredAt : Nat
  verifiedAt : Nat
  status : NGOStatus
  reputationScore : Int
  totalCampaigns : Int
  totalFundsRaised : Int
  totalBeneficiaries : Int
  isActive : Bool
  deriving DecidableEq, Repr

/-- Zero value of an `NGO` (Solidity mapping default); the default status is
the enum's first member, `Pending`. -/
def NGO.zero : NGO :=
  ⟨0, 0, "", "", "", "", "", 0, 0, .Pending, 0, 0, 0, 0, false⟩

/-- Storage of the `NGORegistry` contract. -/
structure RegState where
  ngoIdCounter : Nat
  addressToNgoId : Addr → Nat
  ngos : Nat → NGO
  ngoActivityLogs : Nat → List String
  verifiedCount : Nat
  adminVerificationFrozen : Bool
  admins : Addr → Bool
  verifiers : Addr → Bool
  paused : Bool

namespace NGORegistry

/-- Source `logActivity` (public; also invoked internally with the outer
`msg.sender`). -/
def logActivity (st : RegState) (caller : Addr) (ngoId : Nat)
    (activity : String) : Except Err RegState :=
  if ¬ (st.admins caller ∨ st.verifiers caller ∨ (st.ngos ngoId).ngoAddress = caller) then
    .error ⟨.authorization, "Not authorized"⟩
  else if (st.ngos ngoId).ngoId = 0 then .error ⟨.state, "NGO does not exist"⟩
  else
    .ok { st with ngoActivityLogs := upd st.ngoActivityLogs ngoId (st.ngoActivityLogs ngoId ++ [activity]) }

/-- Source `registerNGO`. -/
def registerNGO (st : RegState) (caller ngoAddress : Addr)
    (name registrationNumber country category kycDocumentHash : String)
    (now : Nat) : Except Err (RegState × Nat) :=
  if st.paused then .error ⟨.state, "Pausable: paused"⟩
  else if ngoAddress = 0 then .error ⟨.validation, "Invalid NGO address"⟩
  else if st.addressToNgoId ngoAddress ≠ 0 then .error ⟨.state, "NGO already registered"⟩
  else if name = "" then .error ⟨.validation, "Name cannot be empty"⟩
  else if registrationNumber = "" then .error ⟨.validation, "Registration number required"⟩
  else
    let ngoId := st.ngoIdCounter + 1
    let ngo : NGO :=
      ⟨ngoId, ngoAddress, name, registrationNumber, country, category,
        kycDocumentHash, now, 0, .Pending, 500, 0, 0, 0, true⟩
    let st2 := { st with
      ngoIdCounter := ngoId
      ngos := upd st.ngos ngoId ngo
      addressToNgoId := upd st.addressToNgoId ngoAddress ngoId }
    match logActivity st2 caller ngoId "NGO registered" with
    | .error e => .error e
    | .ok st3 => .ok (st3, ngoId)

/-- Source `verifyNGO` (verifier path; refused once admin verification is
frozen). -/
def verifyNGO (st : RegState) (caller : Addr) (ngoId : Nat) (now : Nat) :
    Except Err RegState :=
  if ¬ st.verifiers caller then .error ⟨.authorization, "missing role VERIFIER_ROLE"⟩
  else
    let ngo := st.ngos ngoId
    if ngo.ngoId = 0 then .error ⟨.state, "NGO does not exist"⟩
    else if ngo.status ≠ .Pending then .error ⟨.state, "NGO is not pending verification"⟩
    else if st.adminVerificationFrozen then .error ⟨.state, "Admin verification is frozen"⟩
    else
      let ngo2 := { ngo with status := NGOStatus.Verified, verifiedAt := now }
      let st2 := { st with
        ngos := upd st.ngos ngoId ngo2
        verifiedCount := st.verifiedCount + 1 }
      match logActivity st2 caller ngoId "NGO verified by verifier" with
      | .error e => .error e
      | .ok st3 => .ok st3

/-- Source `suspendNGOThroughGovernance`.  The source reads the caller's
reputation with the tuple pattern `(, uint256 reputationScore, , , ) =
governance.userReputations(msg.sender)`, which binds the SECOND component of
the returned struct — `totalProposals` — not the `score` field (compare
`verifyNGOThroughGovernance`, which destructures the first component). -/
def suspendNGOThroughGovernance (st : RegState) (gov : GovState)
    (caller : Addr) (ngoId : Nat) (reason : String) : Except Err RegState :=
  let ngo := st.ngos ngoId
  if ngo.ngoId = 0 then .error ⟨.state, "NGO does not exist"⟩
  else if ngo.status ≠ .Verified then .error ⟨.state, "Only verified NGOs can be suspended"⟩
  else
    let reputationScore := (gov.userReputations caller).totalProposals
    if ¬ (200 ≤ reputationScore) then .error ⟨.authorization, "Insufficient reputation"⟩
    else
      let ngo2 := { ngo with status := NGOStatus.Suspended, isActive := false }
      let st2 := { st with ngos := upd st.ngos ngoId ngo2 }
      match logActivity st2 caller ngoId ("NGO suspended through governance: " ++ reason) with
      | .error e => .error e
      | .ok st3 => .ok st3

/-- Source `isNGOVerified`. -/
def isNGOVerified (st : RegState) (ngoAddress : Addr) : Bool :=
  let ngoId := st.addressToNgoId ngoAddress
  if ngoId = 0 then false
  else
    let ngo := st.ngos ngoId
    (ngo.status = NGOStatus.Verified && ngo.isActive : Bool)

end NGORegistry

/-! ## SoulboundToken -/

inductive TokenStatus
  | Active
  | Redeemed
  | Expired
  | Revoked
  deriving DecidableEq, Repr

structure TokenMetadata where
  tokenId : Nat
  beneficiary : Addr
  campaignId : Nat
  entitledAmount : Int
  serviceType : String
  issuedAt : Nat
  expiryDate : Nat
  isRedeemed : Bool
  redeemedBy : Addr
  redeemedAt : Nat
  proofOfServiceHash : String
  status : TokenStatus
  deriving DecidableEq, Repr

/-- Zero value of a `TokenMetadata` (Solidity mapping default); the default
status is the enum's first member, `Active`. -/
def TokenMetadata.zero : TokenMetadata :=
  ⟨0, 0, 0, 0, "", 0, 0, false, 0, 0, "", .Active⟩

/-- Storage of the `SoulboundToken` contract.  `owners` is the ERC721
`_ownerOf` map (0 = nonexistent token). -/
structure SBTState where
  tokenIdCounter : Nat
  tokenMetadata : Nat → TokenMetadata
  owners : Nat → Addr
  beneficiaryTokens : Addr → List Nat
  campaignTokens : Nat → List Nat
  paused : Bool
  minters : Addr → Bool
  redeemers : Addr → Bool
  admins : Addr → Bool

namespace SoulboundToken

/-- Source `mintToken`.  `_tokenIdCounter++` yields the pre-increment value;
`_safeMint` requires the recipient to be nonzero and the token id unminted. -/
def mintToken (st : SBTState) (caller beneficiary : Addr) (campaignId : Nat)
    (entitledAmount : Int) (serviceType : String) (validityPeriod : Nat)
    (now : Nat) : Except Err (SBTState × Nat) :=
  if ¬ st.minters caller then .error ⟨.authorization, "missing role MINTER_ROLE"⟩
  else if st.paused then .error ⟨.state, "Pausable: paused"⟩
  else if beneficiary = 0 then .error ⟨.validation, "Invalid beneficiary address"⟩
  else if ¬ (0 < entitledAmount) then .error ⟨.validation, "Entitled amount must be greater than 0"⟩
  else if ¬ (0 < validityPeriod) then .error ⟨.validation, "Validity period must be greater than 0"⟩
  else
    let tokenId := st.tokenIdCounter
    let expiryDate := now + validityPeriod
    if st.owners tokenId ≠ 0 then .error ⟨.state, "ERC721InvalidSender"⟩
    else
      let metadata : TokenMetadata :=
        ⟨tokenId, beneficiary, campaignId, entitledAmount, serviceType, now,
          expiryDate, false, 0, 0, "", .Active⟩
      let st2 := { st with
        tokenIdCounter := tokenId + 1
        tokenMetadata := upd st.tokenMetadata tokenId metadata
        owners := upd st.owners tokenId beneficiary
        beneficiaryTokens := upd st.beneficiaryTokens beneficiary (st.beneficiaryTokens beneficiary ++ [tokenId])
        campaignTokens := upd st.campaignTokens campaignId (st.campaignTokens campaignId ++ [tokenId]) }
      .ok (st2, tokenId)

/-- Source `redeemToken`. -/
def redeemToken (st : SBTState) (caller : Addr) (tokenId : Nat)
    (proofOfServiceHash : String) (now : Nat) : Except Err SBTState :=
  if ¬ st.redeemers caller then .error ⟨.authorization, "missing role REDEEMER_ROLE"⟩
  else if st.paused then .error ⟨.state, "Pausable: paused"⟩
  else
    let metadata := st.tokenMetadata tokenId
    if st.owners tokenId = 0 then .error ⟨.state, "Token does not exist"⟩
    else if metadata.status ≠ .Active then .error ⟨.state, "Token is not active"⟩
    else if metadata.isRedeemed then .error ⟨.state, "Token already redeemed"⟩
    else if ¬ (now ≤ metadata.expiryDate) then .error ⟨.temporal, "Token has expired"⟩
    else if proofOfServiceHash = "" then .error ⟨.validation, "Proof of service required"⟩
    else
      let metadata2 := { metadata with
        isRedeemed := true
        redeemedBy := caller
        redeemedAt := now
        proofOfServiceHash := proofOfServiceHash
        status := TokenStatus.Redeemed }
      .ok { st with tokenMetadata := upd st.tokenMetadata tokenId metadata2 }

/-- Source `revokeToken`. -/
def revokeToken (st : SBTState) (caller : Addr) (tokenId : Nat)
    (_reason : String) : Except Err SBTState :=
  if ¬ st.admins caller then .error ⟨.authorization, "missing role ADMIN_ROLE"⟩
  else
    let metadata := st.tokenMetadata tokenId
    if st.owners tokenId = 0 then .error ⟨.state, "Token does not exist"⟩
    else if metadata.status ≠ .Active then .error ⟨.state, "Token is not active"⟩
    else
      let metadata2 := { metadata with status := TokenStatus.Revoked }
      .ok { st with tokenMetadata := upd st.tokenMetadata tokenId metadata2 }

/-- Source `markExpired` (callable by anyone). -/
def markExpired (st : SBTState) (tokenId : Nat) (now : Nat) :
    Except Err SBTState :=
  let metadata := st.tokenMetadata tokenId
  if st.owners tokenId = 0 then .error ⟨.state, "Token does not exist"⟩
  else if metadata.status ≠ .Active then .error ⟨.state, "Token is not active"⟩
  else if ¬ (metadata.expiryDate < now) then .error ⟨.temporal, "Token has not expired yet"⟩
  else
    let metadata2 := { metadata with status := TokenStatus.Expired }
    .ok { st with tokenMetadata := upd st.tokenMetadata tokenId metadata2 }

/-- Source `isTokenRedeemable`. -/
def isTokenRedeemable (st : SBTState) (tokenId : Nat) (now : Nat) : Bool :=
  let metadata := st.tokenMetadata tokenId
  st.owners tokenId ≠ 0 && metadata.status = TokenStatus.Active &&
    !metadata.isRedeemed && now ≤ metadata.expiryDate

/-- Source `transferFrom` override: a `pure` function that reverts
unconditionally, for every caller and every argument. -/
def transferFrom (_fromAddr _toAddr : Addr) (_tokenId : Nat) : Except Err Unit :=
  .error ⟨.state, "Soulbound tokens cannot be transferred"⟩

/-- Source `safeTransferFrom` override: reverts unconditionally. -/
def safeTransferFrom (_fromAddr _toAddr : Addr) (_tokenId : Nat)
    (_data : String) : Except Err Unit :=
  .error ⟨.state, "Soulbound tokens cannot be transferred"⟩

/-- Source `approve` override: reverts unconditionally. -/
def approve (_toAddr : Addr) (_tokenId : Nat) : Except Err Unit :=
  .error ⟨.state, "Soulbound tokens cannot be approved"⟩

/-- Source `setApprovalForAll` override: reverts unconditionally. -/
def setApprovalForAll (_operator : Addr) (_approved : Bool) : Except Err Unit :=
  .error ⟨.state, "Soulbound tokens cannot be approved"⟩

end SoulboundToken

/-! ## CampaignFactory -/

inductive CampaignStatus
  | Draft
  | Active
  | Paused
  | Completed
  | Cancelled
  deriving DecidableEq, Repr

inductive MilestoneStatus
  | Pending
  | InProgress
  | Completed
  | Failed
  deriving DecidableEq, Repr

structure Milestone where
  description : String
  targetAmount : Int
  deadline : Nat
  status : MilestoneStatus
  proofHash : String
  completedAt : Nat
  deriving DecidableEq, Repr

structure Campaign where
  campaignId : Nat
  ngoAddress : Addr
  ngoId : Nat
  title : String
  description : String
  category : String
  targetAmount : Int
  raisedAmount : Int
  startDate : Nat
  endDate : Nat
  status : CampaignStatus
  totalDonors : Nat
  totalBeneficiaries : Nat
  documentsHash : String
  hasMilestones : Bool
  createdAt : Nat
  deriving DecidableEq, Repr

/-- Zero value of a `Campaign` (Solidity mapping default); the default status
is the enum's first member, `Draft`. -/
def Campaign.zero : Campaign :=
  ⟨0, 0, 0, "", "", "", 0, 0, 0, 0, .Draft, 0, 0, "", false, 0⟩

/-- Storage of the `CampaignFactory` contract. -/
structure CFState where
  campaignIdCounter : Nat
  campaigns : Nat → Campaign
  campaignMilestones : Nat → List Milestone
  campaignDonors : Nat → List Addr
  campaignDonations : Nat → Addr → Int
  campaignFunds : Nat → Int
  platformFeePercentage : Int
  feeCollector : Addr
  admins : Addr → Bool
  paused : Bool

/-- An observable effect of an operation, in execution order: an internal
escrow/bookkeeping write, or an external value transfer (`call{value}`). -/
inductive Effect
  | escrowDecrement (campaignId : Nat) (amount : Int)
  | transfer (recipient : Addr) (amount : Int)
  deriving DecidableEq, Repr

namespace CampaignFactory

/-- Source `createCampaign` (requires a verified NGO, read from the
registry). -/
def createCampaign (cf : CFState) (reg : RegState) (caller : Addr)
    (title description category : String) (targetAmount : Int)
    (duration : Nat) (documentsHash : String) (now : Nat) :
    Except Err (CFState × Nat) :=
  if cf.paused then .error ⟨.state, "Pausable: paused"⟩
  else if ¬ NGORegistry.isNGOVerified reg caller then
    .error ⟨.authorization, "Only verified NGOs can create campaigns"⟩
  else if ¬ (0 < targetAmount) then .error ⟨.validation, "Target amount must be greater than 0"⟩
  else if ¬ (0 < duration) then .error ⟨.validation, "Duration must be greater than 0"⟩
  else
    let campaignId := cf.campaignIdCounter + 1
    let ngoId := reg.addressToNgoId caller
    let campaign : Campaign :=
      ⟨campaignId, caller, ngoId, title, description, category, targetAmount,
        0, now, now + duration, .Active, 0, 0, documentsHash, false, now⟩
    let cf2 := { cf with
      campaignIdCounter := campaignId
      campaigns := upd cf.campaigns campaignId campaign }
    .ok (cf2, campaignId)

/-- Source `addMilestone`. -/
def addMilestone (cf : CFState) (caller : Addr) (campaignId : Nat)
    (description : String) (targetAmount : Int) (deadline : Nat) :
    Except Err CFState :=
  let campaign := cf.campaigns campaignId
  if campaign.campaignId = 0 then .error ⟨.state, "Campaign does not exist"⟩
  else if campaign.ngoAddress ≠ caller then
    .error ⟨.authorization, "Only campaign creator can add milestones"⟩
  else if ¬ (campaign.status = .Draft ∨ campaign.status = .Active) then
    .error ⟨.state, "Cannot modify campaign"⟩
  else
    let milestone : Milestone := ⟨description, targetAmount, deadline, .Pending, "", 0⟩
    let campaign2 := { campaign with hasMilestones := true }
    .ok { cf with
      campaignMilestones := upd cf.campaignMilestones campaignId (cf.campaignMilestones campaignId ++ [milestone])
      campaigns := upd cf.campaigns campaignId campaign2 }

/-- Source `donate` (payable; `value` is `msg.value`).  Auto-completes the
campaign once the target is reached. -/
def donate (cf : CFState) (caller : Addr) (campaignId : Nat) (value : Int)
    (now : Nat) : Except Err CFState :=
  if cf.paused then .error ⟨.state, "Pausable: paused"⟩
  else
    let campaign := cf.campaigns campaignId
    if campaign.campaignId = 0 then .error ⟨.state, "Campaign does not exist"⟩
    else if campaign.status ≠ .Active then .error ⟨.state, "Campaign is not active"⟩
    else if ¬ (now ≤ campaign.endDate) then .error ⟨.temporal, "Campaign has ended"⟩
    else if ¬ (0 < value) then .error ⟨.validation, "Donation amount must be greater than 0"⟩
    else
      let firstDonation := cf.campaignDonations campaignId caller = 0
      let donors2 :=
        if firstDonation then upd cf.campaignDonors campaignId (cf.campaignDonors campaignId ++ [caller])
        else cf.campaignDonors
      let campaign2 := { campaign with
        totalDonors := campaign.totalDonors + (if firstDonation then 1 else 0)
        raisedAmount := campaign.raisedAmount + value }
      let campaign3 :=
        if campaign2.targetAmount ≤ campaign2.raisedAmount then
          { campaign2 with status := CampaignStatus.Completed }
        else campaign2
      .ok { cf with
        campaigns := upd cf.campaigns campaignId campaign3
        campaignDonors := donors2
        campaignDonations := upd cf.campaignDonations campaignId (upd (cf.campaignDonations campaignId) caller (cf.campaignDonations campaignId caller + value))
        campaignFunds := upd cf.campaignFunds campaignId (cf.campaignFunds campaignId + value) }

/-- Source `issueBeneficiaryToken`: delegates minting to the token contract
(whose `msg.sender` is then the factory address), increments the beneficiary
count and reserves funds by decrementing `campaignFunds`. -/
def issueBeneficiaryToken (cf : CFState) (sbt : SBTState) (factory : Addr)
    (caller : Addr) (campaignId : Nat) (beneficiary : Addr)
    (entitledAmount : Int) (serviceType : String) (validityPeriod : Nat)
    (now : Nat) : Except Err (CFState × SBTState × Nat) :=
  let campaign := cf.campaigns campaignId
  if campaign.campaignId = 0 then .error ⟨.state, "Campaign does not exist"⟩
  else if campaign.ngoAddress ≠ caller then
    .error ⟨.authorization, "Only campaign creator can issue tokens"⟩
  else if campaign.status ≠ .Active then .error ⟨.state, "Campaign must be active"⟩
  else if ¬ (entitledAmount ≤ cf.campaignFunds campaignId) then
    .error ⟨.resource, "Insufficient campaign funds"⟩
  else if ¬ (0 < entitledAmount) then .error ⟨.validation, "Entitled amount must be greater than 0"⟩
  else if ¬ (0 < validityPeriod) then .error ⟨.validation, "Validity period must be greater than 0"⟩
  else
    match SoulboundToken.mintToken sbt factory beneficiary campaignId
        entitledAmount serviceType validityPeriod now with
    | .error e => .error e
    | .ok (sbt2, tokenId) =>
      let campaign2 := { campaign with totalBeneficiaries := campaign.totalBeneficiaries + 1 }
      let cf2 := { cf with
        campaigns := upd cf.campaigns campaignId campaign2
        campaignFunds := upd cf.campaignFunds campaignId (cf.campaignFunds campaignId - entitledAmount) }
      .ok (cf2, sbt2, tokenId)

/-- Source `releaseFunds`.  Besides the new storage state (which the source
leaves unchanged: no storage slot is written), the result lists the
operation's effects in execution order.  A storage write to the
escrow/reserved state would appear as `Effect.escrowDecrement`; the two
`call{value}` transfers appear as `Effect.transfer`. -/
def releaseFunds (cf : CFState) (caller : Addr) (campaignId : Nat)
    (recipient : Addr) (amount : Int) : Except Err (CFState × List Effect) :=
  if ¬ cf.admins caller then .error ⟨.authorization, "missing role ADMIN_ROLE"⟩
  else
    let campaign := cf.campaigns campaignId
    if campaign.campaignId = 0 then .error ⟨.state, "Campaign does not exist"⟩
    else if recipient = 0 then .error ⟨.validation, "Invalid recipient"⟩
    else if ¬ (0 < amount) then .error ⟨.validation, "Amount must be greater than 0"⟩
    else
      let fee := amount * cf.platformFeePercentage / 10000
      let netAmount := amount - fee
      .ok (cf, [Effect.transfer cf.feeCollector fee, Effect.transfer recipient netAmount])

/-- Source `completeMilestone`. -/
def completeMilestone (cf : CFState) (caller : Addr) (campaignId : Nat)
    (milestoneIndex : Nat) (proofHash : String) (now : Nat) :
    Except Err CFState :=
  let campaign := cf.campaigns campaignId
  if campaign.campaignId = 0 then .error ⟨.state, "Campaign does not exist"⟩
  else if campaign.ngoAddress ≠ caller then
    .error ⟨.authorization, "Only campaign creator can complete milestones"⟩
  else if ¬ (milestoneIndex < (cf.campaignMilestones campaignId).length) then
    .error ⟨.validation, "Invalid milestone index"⟩
  else
    let milestones := cf.campaignMilestones campaignId
    let milestone := milestones.getD milestoneIndex ⟨"", 0, 0, .Pending, "", 0⟩
    if ¬ (milestone.status = .Pending ∨ milestone.status = .InProgress) then
      .error ⟨.state, "Milestone cannot be completed"⟩
    else
      let milestone2 := { milestone with
        status := MilestoneStatus.Completed
        proofHash := proofHash
        completedAt := now }
      .ok { cf with campaignMilestones := upd cf.campaignMilestones campaignId (milestones.set milestoneIndex milestone2) }

/-- Source `pauseCampaign` (owner or admin; Active only). -/
def pauseCampaign (cf : CFState) (caller : Addr) (campaignId : Nat) :
    Except Err CFState :=
  let campaign := cf.campaigns campaignId
  if campaign.campaignId = 0 then .error ⟨.state, "Campaign does not exist"⟩
  else if ¬ (campaign.ngoAddress = caller ∨ cf.admins caller) then
    .error ⟨.authorization, "Not authorized"⟩
  else if campaign.status ≠ .Active then .error ⟨.state, "Campaign is not active"⟩
  else
    .ok { cf with campaigns := upd cf.campaigns campaignId ({ campaign with status := CampaignStatus.Paused }) }

/-- Source `resumeCampaign` (owner or admin; Paused only). -/
def resumeCampaign (cf : CFState) (caller : Addr) (campaignId : Nat) :
    Except Err CFState :=
  let campaign := cf.campaigns campaignId
  if campaign.campaignId = 0 then .error ⟨.state, "Campaign does not exist"⟩
  else if ¬ (campaign.ngoAddress = caller ∨ cf.admins caller) then
    .error ⟨.authorization, "Not authorized"⟩
  else if campaign.status ≠ .Paused then .error ⟨.state, "Campaign is not paused"⟩
  else
    .ok { cf with campaigns := upd cf.campaigns campaignId ({ campaign with status := CampaignStatus.Active }) }

end CampaignFactory

/-! ## The deployed system

One state machine over the four contracts' storages, whose steps are the
platform's external entry points.  Following the deployment script, the
factory is the minter on the token contract; redemption-capable providers are
a pre-established configuration (spec section 6: role assignment is outside
the core).  Direct `mintToken` calls bypassing the factory are not steps of
this machine: the spec's architecture names the campaign ledger as the
minter. -/

structure SysState where
  reg : RegState
  gov : GovState
  cf : CFState
  sbt : SBTState
  factoryAddr : Addr

/-- One external operation; every mutating entry point the claims concern.
Each carries its `msg.sender` where the source reads it. -/
inductive SysOp
  | registerNGO (caller ngoAddress : Addr) (name registrationNumber country category kycDocumentHash : String)
  | verifyNGO (caller : Addr) (ngoId : Nat)
  | suspendNGOThroughGovernance (caller : Addr) (ngoId : Nat) (reason : String)
  | createVerificationProposal (caller : Addr) (ngoId : Nat) (description evidenceHash : String)
  | challengeNGO (caller : Addr) (ngoId : Nat) (description evidenceHash : String)
  | castVote (caller : Addr) (proposalId : Nat) (voteType : VoteType)
  | executeProposal (proposalId : Nat)
  | initializeReputation (caller user : Addr)
  | createCampaign (caller : Addr) (title description category : String) (targetAmount : Int) (duration : Nat) (documentsHash : String)
  | addMilestone (caller : Addr) (campaignId : Nat) (description : String) (targetAmount : Int) (deadline : Nat)
  | donate (caller : Addr) (campaignId : Nat) (value : Int)
  | issueBeneficiaryToken (caller : Addr) (campaignId : Nat) (beneficiary : Addr) (entitledAmount : Int) (serviceType : String) (validityPeriod : Nat)
  | releaseFunds (caller : Addr) (campaignId : Nat) (recipient : Addr) (amount : Int)
  | completeMilestone (caller : Addr) (campaignId : Nat) (milestoneIndex : Nat) (proofHash : String)
  | pauseCampaign (caller : Addr) (campaignId : Nat)
  | resumeCampaign (caller : Addr) (campaignId : Nat)
  | redeemToken (caller : Addr) (tokenId : Nat) (proofOfServiceHash : String)
  | revokeToken (caller : Addr) (tokenId : Nat) (reason : String)
  | markExpired (tokenId : Nat)
  | transferFrom (fromAddr toAddr : Addr) (tokenId : Nat)
  | safeTransferFrom (fromAddr toAddr : Addr) (tokenId : Nat) (data : String)
  | approve (toAddr : Addr) (tokenId : Nat)
  | setApprovalForAll (operator : Addr) (approved : Bool)

/-- Run one operation; a revert anywhere aborts it whole. -/
def sysExec (sys : SysState) (op : SysOp) (now : Nat) : Except Err SysState :=
  match op with
  | .registerNGO caller ngoAddress name registrationNumber country category kycDocumentHash =>
    match NGORegistry.registerNGO sys.reg caller ngoAddress name registrationNumber country category kycDocumentHash now with
    | .error e => .error e
    | .ok (reg2, _) => .ok { sys with reg := reg2 }
  | .verifyNGO caller ngoId =>
    match NGORegistry.verifyNGO sys.reg caller ngoId now with
    | .error e => .error e
    | .ok reg2 => .ok { sys with reg := reg2 }
  | .suspendNGOThroughGovernance caller ngoId reason =>
    match NGORegistry.suspendNGOThroughGovernance sys.reg sys.gov caller ngoId reason with
    | .error e => .error e
    | .ok reg2 => .ok { sys with reg := reg2 }
  | .createVerificationProposal caller ngoId description evidenceHash =>
    match NGOGovernance.createVerificationProposal sys.gov caller ngoId description evidenceHash now with
    | .error e => .error e
    | .ok (gov2, _) => .ok { sys with gov := gov2 }
  | .challengeNGO caller ngoId description evidenceHash =>
    match NGOGovernance.challengeNGO sys.gov caller ngoId description evidenceHash now with
    | .error e => .error e
    | .ok (gov2, _) => .ok { sys with gov := gov2 }
  | .castVote caller proposalId voteType =>
    match NGOGovernance.castVote sys.gov caller proposalId voteType now with
    | .error e => .error e
    | .ok gov2 => .ok { sys with gov := gov2 }
  | .executeProposal proposalId =>
    match NGOGovernance.executeProposal sys.gov proposalId now with
    | .error e => .error e
    | .ok gov2 => .ok { sys with gov := gov2 }
  | .initializeReputation caller user =>
    match NGOGovernance.initializeReputation sys.gov caller user now with
    | .error e => .error e
    | .ok gov2 => .ok { sys with gov := gov2 }
  | .createCampaign caller title description category targetAmount duration documentsHash =>
    match CampaignFactory.createCampaign sys.cf sys.reg caller title description category targetAmount duration documentsHash now with
    | .error e => .error e
    | .ok (cf2, _) => .ok { sys with cf := cf2 }
  | .addMilestone caller campaignId description targetAmount deadline =>
    match CampaignFactory.addMilestone sys.cf caller campaignId description targetAmount deadline with
    | .error e => .error e
    | .ok cf2 => .ok { sys with cf := cf2 }
  | .donate caller campaignId value =>
    match CampaignFactory.donate sys.cf caller campaignId value now with
    | .error e => .error e
    | .ok cf2 => .ok { sys with cf := cf2 }
  | .issueBeneficiaryToken caller campaignId beneficiary entitledAmount serviceType validityPeriod =>
    match CampaignFactory.issueBeneficiaryToken sys.cf sys.sbt sys.factoryAddr caller campaignId beneficiary entitledAmount serviceType validityPeriod now with
    | .error e => .error e
    | .ok (cf2, sbt2, _) => .ok { sys with cf := cf2, sbt := sbt2 }
  | .releaseFunds caller campaignId recipient amount =>
    match CampaignFactory.releaseFunds sys.cf caller campaignId recipient amount with
    | .error e => .error e
    | .ok (cf2, _) => .ok { sys with cf := cf2 }
  | .completeMilestone caller campaignId milestoneIndex proofHash =>
    match CampaignFactory.completeMilestone sys.cf caller campaignId milestoneIndex proofHash now with
    | .error e => .error e
    | .ok cf2 => .ok { sys with cf := cf2 }
  | .pauseCampaign caller campaignId =>
    match CampaignFactory.pauseCampaign sys.cf caller campaignId with
    | .error e => .error e
    | .ok cf2 => .ok { sys with cf := cf2 }
  | .resumeCampaign caller campaignId =>
    match CampaignFactory.resumeCampaign sys.cf caller campaignId with
    | .error e => .error e
    | .ok cf2 => .ok { sys with cf := cf2 }
  | .redeemToken caller tokenId proofOfServiceHash =>
    match SoulboundToken.redeemToken sys.sbt caller tokenId proofOfServiceHash now with
    | .error e => .error e
    | .ok sbt2 => .ok { sys with sbt := sbt2 }
  | .revokeToken caller tokenId reason =>
    match SoulboundToken.revokeToken sys.sbt caller tokenId reason with
    | .error e => .error e
    | .ok sbt2 => .ok { sys with sbt := sbt2 }
  | .markExpired tokenId =>
    match SoulboundToken.markExpired sys.sbt tokenId now with
    | .error e => .error e
    | .ok sbt2 => .ok { sys with sbt := sbt2 }
  | .transferFrom fromAddr toAddr tokenId =>
    match SoulboundToken.transferFrom fromAddr toAddr tokenId with
    | .error e => .error e
    | .ok _ => .ok sys
  | .safeTransferFrom fromAddr toAddr tokenId data =>
    match SoulboundToken.safeTransferFrom fromAddr toAddr tokenId data with
    | .error e => .error e
    | .ok _ => .ok sys
  | .approve toAddr tokenId =>
    match SoulboundToken.approve toAddr tokenId with
    | .error e => .error e
    | .ok _ => .ok sys
  | .setApprovalForAll operator approved =>
    match SoulboundToken.setApprovalForAll operator approved with
    | .error e => .error e
    | .ok _ => .ok sys

/-- Atomicity: a failed operation leaves the state untouched. -/
def applySys (sys : SysState) (op : SysOp) (now : Nat) : SysState :=
  match sysExec sys op now with
  | .ok sys2 => sys2
  | .error _ => sys

/-- Fold a list of (operation, timestamp) pairs. -/
def runSys (sys : SysState) (ops : List (SysOp × Nat)) : SysState :=
  ops.foldl (fun s p => applySys s p.1 p.2) sys

/-- Post-deployment state: empty storages; the deployer holds the admin and
verifier roles it receives in the constructors and the deployment script; the
factory holds the minter role on the token contract (the deployer keeps the
one granted in the token constructor); redemption-capable providers are the
pre-established set `redeemers`. -/
def sysInit (deployer factory feeCollector : Addr) (redeemers : Addr → Bool) : SysState where
  reg := ⟨0, fun _ => 0, fun _ => NGO.zero, fun _ => [], 0, false,
    fun a => a = deployer, fun a => a = deployer, false⟩
  gov := ⟨fun _ => Proposal.zero, fun _ => UserReputation.zero, fun _ => 0,
    fun _ => [], 0, fun a => a = deployer⟩
  cf := ⟨0, fun _ => Campaign.zero, fun _ => [], fun _ => [], fun _ _ => 0,
    fun _ => 0, 250, feeCollector, fun a => a = deployer, false⟩
  sbt := ⟨0, fun _ => TokenMetadata.zero, fun _ => 0, fun _ => [], fun _ => [],
    false, fun a => a = deployer ∨ a = factory, redeemers, fun a => a = deployer⟩
  factoryAddr := factory

/-- The reachable states of the deployed system. -/
inductive SysReachable : SysState → Prop
  | init (deployer factory feeCollector : Addr) (redeemers : Addr → Bool) :
      SysReachable (sysInit deployer factory feeCollector redeemers)
  | step (sys : SysState) (op : SysOp) (now : Nat) :
      SysReachable sys → SysReachable (applySys sys op now)

/-- Sum of the entitled amounts of the listed tokens. -/
def entitledSum (sbt : SBTState) (ts : List Nat) : Int :=
  (ts.map fun t => (sbt.tokenMetadata t).entitledAmount).sum

/-- Sum of the entitled amounts of the listed tokens whose status is not
`Revoked`. -/
def entitledSumNonRevoked (sbt : SBTState) (ts : List Nat) : Int :=
  ((ts.filter fun t => (sbt.tokenMetadata t).status ≠ TokenStatus.Revoked).map
    fun t => (sbt.tokenMetadata t).entitledAmount).sum

/-- The escrow relation the code actually maintains: available funds equal the
raised amount minus the entitled amounts of ALL tokens issued against the
campaign (revoked ones included), and never go negative. -/
def escrowInvariant (sys : SysState) : Prop :=
  ∀ c, 0 ≤ sys.cf.campaignFunds c ∧
    sys.cf.campaignFunds c =
      (sys.cf.campaigns c).raisedAmount - entitledSum sys.sbt (sys.sbt.campaignTokens c)

/-- The escrow relation as the claim states it: available funds equal the
raised amount minus the entitled amounts of the NON-REVOKED tokens issued
against the campaign. -/
def claimedEscrowInvariant (sys : SysState) : Prop :=
  ∀ c, sys.cf.campaignFunds c =
    (sys.cf.campaigns c).raisedAmount - entitledSumNonRevoked sys.sbt (sys.sbt.campaignTokens c)

/-! ## Concrete states used by witnesses and counterexamples -/

/-- A token-contract state: token 0 is an Active token held by address 5 for
campaign 1, entitled 5 units, expiring at time 100; address 9 is the minter,
address 7 the redeemer, address 2 the admin. -/
def sbtW : SBTState :=
  ⟨1,
    upd (fun _ => TokenMetadata.zero) 0 ⟨0, 5, 1, 5, "Srv", 0, 100, false, 0, 0, "", .Active⟩,
    upd (fun _ => 0) 0 5,
    upd (fun _ => []) 5 [0],
    upd (fun _ => []) 1 [0],
    false,
    fun a => a = 9, fun a => a = 7, fun a => a = 2⟩

/-- A governance state: proposal 1 (proposer address 7) closed at time 5 with
0 upvotes and 1 downvote — a failed proposal — and the proposer's reputation
score is exactly 10 (= the per-proposal delta). -/
def govC6 : GovState :=
  ⟨upd (fun _ => Proposal.zero) 1
      ({ Proposal.zero with proposalId := 1, proposer := 7, endTime := 5, downvotes := 1 }),
    upd (fun _ => UserReputation.zero) 7 ⟨10, 0, 0, 0, 0⟩,
    fun _ => 0, fun _ => [], 1, fun _ => false⟩

/-- A governance state: proposal 1 with voting window ending at time 100 and
no votes; address 7 has reputation score 500. -/
def govC8 : GovState :=
  ⟨upd (fun _ => Proposal.zero) 1
      ({ Proposal.zero with proposalId := 1, proposer := 3, startTime := 0, endTime := 100 }),
    upd (fun _ => UserReputation.zero) 7 ⟨500, 0, 0, 0, 0⟩,
    fun _ => 0, fun _ => [], 1, fun _ => false⟩

/-- C5 note: address 8 additionally holds the Verifier role so that the
internal `logActivity` authorization (admin, verifier, or the NGO itself)
does not mask the reputation check under scrutiny. -/
def regC5verifiers : Addr → Bool := fun a => a = 2 || a = 8

/-- A registry state: NGO 1 is Verified and active, owned by address 5. -/
def regC5 : RegState :=
  ⟨1, upd (fun _ => 0) 5 1,
    upd (fun _ => NGO.zero) 1
      ({ NGO.zero with
          ngoId := 1
          ngoAddress := 5
          name := "N"
          registrationNumber := "R"
          status := NGOStatus.Verified
          reputationScore := 500
          isActive := true }),
    fun _ => [], 1, false, fun a => a = 2, regC5verifiers, false⟩

/-- A governance state for the suspension claim: address 9 has reputation
score 500 (and has never proposed: `totalProposals = 0`); address 8 has
reputation score 0 but `totalProposals = 200`. -/
def govC5 : GovState :=
  ⟨fun _ => Proposal.zero,
    upd (upd (fun _ => UserReputation.zero) 9 ⟨500, 0, 0, 0, 0⟩) 8 ⟨0, 200, 0, 0, 0⟩,
    fun _ => 0, fun _ => [], 0, fun _ => false⟩

/-- A factory state for the release/issue claims: campaign 1 is Active, owned
by address 5, with raised amount 10 and escrow (campaignFunds) 10; address 2
is the admin; the fee collector is address 8. -/
def cfW : CFState :=
  ⟨1,
    upd (fun _ => Campaign.zero) 1
      ({ Campaign.zero with
          campaignId := 1
          ngoAddress := 5
          ngoId := 1
          targetAmount := 100
          raisedAmount := 10
          endDate := 1000
          status := CampaignStatus.Active }),
    fun _ => [], fun _ => [], fun _ _ => 0,
    upd (fun _ => 0) 1 10,
    250, 8, fun a => a = 2, false⟩

/-- A freshly deployed token-contract state whose minter is address 9 (the
factory), redeemer address 7, admin address 2. -/
def sbtFresh : SBTState :=
  ⟨0, fun _ => TokenMetadata.zero, fun _ => 0, fun _ => [], fun _ => [],
    false, fun a => a = 9, fun a => a = 7, fun a => a = 2⟩

/-! ## Theorems -/

/-- C1: for a caller holding the Redeemer capability, with the token contract
not paused, `redeemToken` succeeds exactly when the token exists, its status
is Active, it is not already redeemed, `now ≤ expiry` (so a redemption at
exactly the expiry instant is accepted) and the proof-of-service reference is
non-empty; on success it sets status Redeemed and records the redeemer
identity, time and proof; and any second `redeemToken` call on the same token
then fails with a state error, regardless of (capable) caller. -/
theorem C1_redeemToken_exactly_once (st : SBTState) (caller : Addr)
    (tokenId : Nat) (proofOfServiceHash : String) (now : Nat)
    (hrole : st.redeemers caller = true) (hpaused : st.paused = false) :
    ((∃ st2, SoulboundToken.redeemToken st caller tokenId proofOfServiceHash now = .ok st2) ↔
      (st.owners tokenId ≠ 0 ∧
        (st.tokenMetadata tokenId).status = TokenStatus.Active ∧
        (st.tokenMetadata tokenId).isRedeemed = false ∧
        now ≤ (st.tokenMetadata tokenId).expiryDate ∧
        proofOfServiceHash ≠ "")) ∧
    ∀ st2, SoulboundToken.redeemToken st caller tokenId proofOfServiceHash now = .ok st2 →
      ((st2.tokenMetadata tokenId).status = TokenStatus.Redeemed ∧
        (st2.tokenMetadata tokenId).redeemedBy = caller ∧
        (st2.tokenMetadata tokenId).redeemedAt = now ∧
        (st2.tokenMetadata tokenId).proofOfServiceHash = proofOfServiceHash) ∧
      ∀ caller2 proof2 now2, st2.redeemers caller2 = true → st2.paused = false →
        ∃ e, SoulboundToken.redeemToken st2 caller2 tokenId proof2 now2 = .error e ∧
          e.kind = ErrKind.state := by
  unfold SoulboundToken.redeemToken
  simp only [hrole, hpaused]
  constructor
  · constructor
    · rintro ⟨st2, h⟩
      split_ifs at h
      simp_all
    · rintro ⟨h1, h2, h3, h4, h5⟩
      split_ifs <;> simp_all
  · intro st2 h
    split_ifs at h with h1 h2 h3 h4 h5 h6 h7
    all_goals simp_all
    cases h
    refine ⟨⟨by simp [upd], by simp [upd], by simp [upd], by simp [upd]⟩, ?_⟩
    intro caller2 proof2 now2 hr2 hp2
    simp only [hr2, hp2]
    refine ⟨⟨.state, "Token is not active"⟩, ?_, rfl⟩
    split_ifs <;> simp_all [upd]

/-- C1 witness: at the concrete state `sbtW`, the capable caller 7 redeems
token 0 at exactly its expiry instant. -/
theorem C1_redeemToken_witness :
    ∃ st2, SoulboundToken.redeemToken sbtW 7 0 "Qm" 100 = .ok st2 :=
  (C1_redeemToken_exactly_once sbtW 7 0 "Qm" 100 (by decide) (by decide)).1.mpr
    ⟨by decide, by decide, by decide, by decide, by decide⟩

/-- C10: `executeProposal` on a proposal id that was never created (the
mapping holds the zero-valued default record: `endTime = 0`, `executed =
false`), at any `now > 0`, does not reject: it marks the nonexistent proposal
executed and runs the failed-proposal reputation path against the
zero-address proposer; only a second call on the same id then fails as
already executed. -/
theorem C10_executeProposal_nonexistent (st : GovState) (proposalId : Nat)
    (now : Nat) (hdefault : st.proposals proposalId = Proposal.zero)
    (hnow : 0 < now) :
    ∃ st2, NGOGovernance.executeProposal st proposalId now = .ok st2 ∧
      (st2.proposals proposalId).executed = true ∧
      (st2.userReputations 0).score =
        (if NGOGovernance.REPUTATION_CHANGE_PER_VOTE < (st.userReputations 0).score
          then (st.userReputations 0).score - NGOGovernance.REPUTATION_CHANGE_PER_VOTE
          else (st.userReputations 0).score) ∧
      (∀ u, u ≠ 0 → st2.userReputations u = st.userReputations u) ∧
      ∀ now2, 0 < now2 →
        ∃ e, NGOGovernance.executeProposal st2 proposalId now2 = .error e ∧
          e.kind = ErrKind.state ∧ e.msg = "Already executed" := by
  have hrun : NGOGovernance.executeProposal st proposalId now =
      .ok (NGOGovernance.updateReputationForFailure
        { st with proposals := upd st.proposals proposalId ({ Proposal.zero with executed := true }) } proposalId) := by
    simp only [NGOGovernance.executeProposal, hdefault]
    norm_num [Proposal.zero, hnow]
  refine ⟨_, hrun, ?_, ?_, ?_, ?_⟩
  · simp only [NGOGovernance.updateReputationForFailure, upd, Proposal.zero]
    norm_num
    split_ifs <;> simp [upd]
  · simp only [NGOGovernance.updateReputationForFailure, upd, Proposal.zero]
    norm_num
    split_ifs <;> simp_all [upd]
  · intro u hu
    simp only [NGOGovernance.updateReputationForFailure, upd, Proposal.zero]
    norm_num
    split_ifs <;> simp [upd, hu]
  · intro now2 hnow2
    refine ⟨⟨.state, "Already executed"⟩, ?_, rfl, rfl⟩
    simp only [NGOGovernance.updateReputationForFailure, upd, Proposal.zero]
    norm_num
    split_ifs <;> simp [NGOGovernance.executeProposal, upd, Proposal.zero, hnow2]

/-- C10 witness: at the freshly deployed governance state (inside
`sysInit 2 9 8 (fun a => a = 7)`), executing the never-created proposal 1 at
time 1 succeeds. -/
theorem C10_executeProposal_nonexistent_witness :
    ∃ st2, NGOGovernance.executeProposal (sysInit 2 9 8 (fun a => a = 7)).gov 1 1 = .ok st2 ∧
      (st2.proposals 1).executed = true := by
  obtain ⟨st2, h1, h2, -⟩ :=
    C10_executeProposal_nonexistent (sysInit 2 9 8 (fun a => a = 7)).gov 1 1 rfl (by decide)
  exact ⟨st2, h1, h2⟩

/-- C6 counterexample: proposal 1 of `govC6` failed (upvotes ≤ downvotes) and
its proposer, address 7, has reputation score 10.  Executing it succeeds but
leaves the score at 10, whereas a decrement "by delta (10), floored at 0"
would yield 0: the source only decrements when the score strictly exceeds the
delta, so a score of 10 (or any positive score ≤ 10) is left unchanged, not
floored to 0. -/
theorem C6_failure_not_floored_at_zero :
    ((NGOGovernance.executeProposal govC6 1 6).toOption.map
      fun st2 => (st2.userReputations 7).score) = some 10 ∧
    (govC6.proposals 1).upvotes ≤ (govC6.proposals 1).downvotes ∧
    (govC6.proposals 1).endTime < 6 ∧ (govC6.proposals 1).executed = false ∧
    (govC6.userReputations 7).score = 10 ∧
    ¬ ((10 : Int) = max ((govC6.userReputations 7).score - NGOGovernance.REPUTATION_CHANGE_PER_VOTE) 0) := by
  refine ⟨rfl, by decide, by decide, by decide, by decide, by decide⟩

/-- C6 (amended): `executeProposal` is callable by anyone (the embedding
takes no caller at all) and succeeds exactly when the voting window has
closed (`now > endTime`) and the proposal is not already executed; it then
marks the proposal executed and every further call on the same id fails; the
outcome is pass exactly when cumulative upvote weight exceeds cumulative
downvote weight; on pass the proposer's reputation increases by 2 × delta
(delta = 10) and the relevant success counter increments; on failure the
proposer's reputation decreases by delta ONLY IF it strictly exceeds delta,
and is otherwise left unchanged (it is not floored at 0). -/
theorem C6_executeProposal_spec (st : GovState) (proposalId : Nat) (now : Nat) :
    ((∃ st2, NGOGovernance.executeProposal st proposalId now = .ok st2) ↔
      ((st.proposals proposalId).endTime < now ∧
        (st.proposals proposalId).executed = false)) ∧
    ∀ st2, NGOGovernance.executeProposal st proposalId now = .ok st2 →
      (st2.proposals proposalId).executed = true ∧
      (∀ now2, ∃ e, NGOGovernance.executeProposal st2 proposalId now2 = .error e) ∧
      ((st.proposals proposalId).downvotes < (st.proposals proposalId).upvotes →
        (st2.userReputations (st.proposals proposalId).proposer).score =
          (st.userReputations (st.proposals proposalId).proposer).score +
            NGOGovernance.REPUTATION_CHANGE_PER_VOTE * 2 ∧
        ((st.proposals proposalId).proposalType = ProposalType.Verification →
          (st2.userReputations (st.proposals proposalId).proposer).successfulVerifications =
            (st.userReputations (st.proposals proposalId).proposer).successfulVerifications + 1) ∧
        ((st.proposals proposalId).proposalType = ProposalType.Challenge →
          (st2.userReputations (st.proposals proposalId).proposer).successfulChallenges =
            (st.userReputations (st.proposals proposalId).proposer).successfulChallenges + 1)) ∧
      (¬ ((st.proposals proposalId).downvotes < (st.proposals proposalId).upvotes) →
        (st2.userReputations (st.proposals proposalId).proposer).score =
          (if NGOGovernance.REPUTATION_CHANGE_PER_VOTE <
              (st.userReputations (st.proposals proposalId).proposer).score
            then (st.userReputations (st.proposals proposalId).proposer).score -
              NGOGovernance.REPUTATION_CHANGE_PER_VOTE
            else (st.userReputations (st.proposals proposalId).proposer).score)) := by
  constructor
  · constructor
    · rintro ⟨st2, h⟩
      simp only [NGOGovernance.executeProposal] at h
      split_ifs at h with h1 h2 <;>
        first
          | exact ⟨h1, by simpa using h2⟩
          | cases h
    · rintro ⟨h1, h2⟩
      simp only [NGOGovernance.executeProposal]
      split_ifs with h3 h4 <;>
        first
          | exact absurd h1 h3
          | simp_all
          | exact ⟨_, rfl⟩
  · intro st2 h
    simp only [NGOGovernance.executeProposal] at h
    split_ifs at h with h1 h2 h3 h4
    all_goals injection h with h
    all_goals subst h
    · -- passed, Verification
      refine ⟨?_, ?_, ?_, ?_⟩
      · simp [NGOGovernance.updateReputationForSuccess, upd]
      · intro now2
        simp only [NGOGovernance.executeProposal]
        split_ifs <;>
          first
            | exact ⟨_, rfl⟩
            | simp_all [NGOGovernance.updateReputationForSuccess, upd]
      · intro hp
        refine ⟨?_, ?_, ?_⟩
        · simp [NGOGovernance.updateReputationForSuccess, upd]
        · intro hv
          simp [NGOGovernance.updateReputationForSuccess, upd]
        · intro hv
          rw [h4] at hv
          cases hv
      · intro hp
        exact absurd h3 hp
    · -- passed, Challenge
      refine ⟨?_, ?_, ?_, ?_⟩
      · simp [NGOGovernance.updateReputationForSuccess, upd]
      · intro now2
        simp only [NGOGovernance.executeProposal]
        split_ifs <;>
          first
            | exact ⟨_, rfl⟩
            | simp_all [NGOGovernance.updateReputationForSuccess, upd]
      · intro hp
        refine ⟨?_, ?_, ?_⟩
        · simp [NGOGovernance.updateReputationForSuccess, upd]
        · intro hv
          exact absurd hv h4
        · intro hv
          simp [NGOGovernance.updateReputationForSuccess, upd]
      · intro hp
        exact absurd h3 hp
    · -- failed
      refine ⟨?_, ?_, ?_, ?_⟩
      · simp only [NGOGovernance.updateReputationForFailure, upd]
        norm_num
        split_ifs <;> simp [upd]
      · intro now2
        simp only [NGOGovernance.executeProposal, NGOGovernance.updateReputationForFailure, upd]
        norm_num
        split_ifs <;>
          first
            | exact ⟨_, rfl⟩
            | simp_all [upd]
      · intro hp
        exact absurd hp h3
      · intro hp
        simp only [NGOGovernance.updateReputationForFailure, upd]
        norm_num
        split_ifs <;> simp [upd]

/-- C6 witness: at `govC6`, executing closed, unexecuted proposal 1 at time 6
succeeds, via the amended specification's success condition. -/
theorem C6_executeProposal_spec_witness :
    ∃ st2, NGOGovernance.executeProposal govC6 1 6 = .ok st2 :=
  (C6_executeProposal_spec govC6 1 6).1.mpr ⟨by decide, by decide⟩

/-- C8 counterexample: in `govC8`, proposal 1's window ends at time 100 and
address 7 (score 500, not yet voted) casts a vote at exactly `now = 100`.
Under the claimed half-open window [start, end) the window has closed at
`now = end`, so the vote should be rejected — but the source accepts it
(`require(block.timestamp <= proposal.endTime)`) and accumulates its weight
500 × 100 / 1000 = 50. -/
theorem C8_castVote_accepts_at_end_instant :
    ((NGOGovernance.castVote govC8 7 1 VoteType.Upvote 100).toOption.map
      fun st2 => ((st2.proposals 1).upvotes, ((st2.proposals 1).votes 7).hasVoted)) =
        some (50, true) ∧
    (govC8.proposals 1).endTime = 100 ∧
    NGOGovernance.MIN_REPUTATION_TO_VOTE ≤ (govC8.userReputations 7).score ∧
    ((govC8.proposals 1).votes 7).hasVoted = false := by
  refine ⟨rfl, by decide, by decide, by decide⟩

/-- C8 (amended): `castVote` rejects exactly when the voter's reputation is
below the minimum (100), the voting window — CLOSED interval [start, end] in
the code: a vote at `now = end` is accepted — has ended (`now > end`), or the
voter has already voted on that proposal, so at most one vote per voter is
ever recorded; an accepted vote carries voting power
reputation × weight_base / 1000 and is accumulated into the proposal's upvote
or downvote total. -/
theorem C8_castVote_spec (st : GovState) (caller : Addr) (proposalId : Nat)
    (voteType : VoteType) (now : Nat) :
    ((∃ st2, NGOGovernance.castVote st caller proposalId voteType now = .ok st2) ↔
      (NGOGovernance.MIN_REPUTATION_TO_VOTE ≤ (st.userReputations caller).score ∧
        now ≤ (st.proposals proposalId).endTime ∧
        ((st.proposals proposalId).votes caller).hasVoted = false)) ∧
    ∀ st2, NGOGovernance.castVote st caller proposalId voteType now = .ok st2 →
      (((st2.proposals proposalId).votes caller).hasVoted = true ∧
        ((st2.proposals proposalId).votes caller).votingPower =
          (st.userReputations caller).score * NGOGovernance.VOTE_WEIGHT_BASE / 1000) ∧
      (voteType = VoteType.Upvote →
        (st2.proposals proposalId).upvotes =
          (st.proposals proposalId).upvotes +
            (st.userReputations caller).score * NGOGovernance.VOTE_WEIGHT_BASE / 1000 ∧
        (st2.proposals proposalId).downvotes = (st.proposals proposalId).downvotes) ∧
      (voteType = VoteType.Downvote →
        (st2.proposals proposalId).downvotes =
          (st.proposals proposalId).downvotes +
            (st.userReputations caller).score * NGOGovernance.VOTE_WEIGHT_BASE / 1000 ∧
        (st2.proposals proposalId).upvotes = (st.proposals proposalId).upvotes) ∧
      ∀ voteType2 now2,
        ∃ e, NGOGovernance.castVote st2 caller proposalId voteType2 now2 = .error e := by
  constructor
  · constructor
    · rintro ⟨st2, h⟩
      simp only [NGOGovernance.castVote, NGOGovernance.castVoteInternal] at h
      split_ifs at h with h1 h2 h3 <;>
        first
          | exact ⟨by simpa using h1, by omega, by simpa using h3⟩
          | cases h
    · rintro ⟨h1, h2, h3⟩
      simp only [NGOGovernance.castVote, NGOGovernance.castVoteInternal]
      split_ifs <;>
        first
          | exact ⟨_, rfl⟩
          | simp_all
  · intro st2 h
    simp only [NGOGovernance.castVote, NGOGovernance.castVoteInternal,
      NGOGovernance.calculateVotingPower] at h
    split_ifs at h with h1 h2 h3 h4
    all_goals injection h with h
    all_goals subst h
    · -- upvote accepted
      refine ⟨⟨by simp [upd], by simp [upd]⟩, ?_, ?_, ?_⟩
      · intro hv
        exact ⟨by simp [upd], by simp [upd]⟩
      · intro hv
        rw [hv] at h4
        simp_all
      · intro voteType2 now2
        simp only [NGOGovernance.castVote, NGOGovernance.castVoteInternal]
        split_ifs <;>
          first
            | exact ⟨_, rfl⟩
            | simp_all [upd]
    · -- downvote accepted
      have h5 : voteType = VoteType.Downvote := by
        cases voteType
        · exact absurd rfl h4
        · rfl
      refine ⟨⟨by simp [upd], by simp [upd]⟩, ?_, ?_, ?_⟩
      · intro hv
        rw [hv] at h5
        simp_all
      · intro hv
        exact ⟨by simp [upd], by simp [upd]⟩
      · intro voteType2 now2
        simp only [NGOGovernance.castVote, NGOGovernance.castVoteInternal]
        split_ifs <;>
          first
            | exact ⟨_, rfl⟩
            | simp_all [upd]

/-- C8 witness: at `govC8`, the eligible address 7 votes on proposal 1 at
time 50, inside the window. -/
theorem C8_castVote_spec_witness :
    ∃ st2, NGOGovernance.castVote govC8 7 1 VoteType.Upvote 50 = .ok st2 :=
  (C8_castVote_spec govC8 7 1 VoteType.Upvote 50).1.mpr ⟨by decide, by decide, by decide⟩

/-- C5: the source's `suspendNGOThroughGovernance` destructures the SECOND
component of `governance.userReputations(msg.sender)` — `totalProposals` —
where the spec (and the sibling `verifyNGOThroughGovernance`) use the
reputation `score`.  Address 9 has score 500 ≥ 200 yet its suspension of the
Verified NGO 1 is rejected with "Insufficient reputation"; address 8 with
score 0 but `totalProposals = 200` succeeds. -/
theorem C5_suspend_checks_totalProposals_not_score :
    (regC5.ngos 1).status = NGOStatus.Verified ∧ (regC5.ngos 1).isActive = true ∧
    200 ≤ (govC5.userReputations 9).score ∧
    NGORegistry.suspendNGOThroughGovernance regC5 govC5 9 1 "fraud" =
      .error ⟨.authorization, "Insufficient reputation"⟩ ∧
    (govC5.userReputations 8).score = 0 ∧
    ((NGORegistry.suspendNGOThroughGovernance regC5 govC5 8 1 "fraud").toOption.map
      fun st2 => ((st2.ngos 1).status, (st2.ngos 1).isActive)) =
        some (NGOStatus.Suspended, false) := by
  refine ⟨by decide, by decide, by decide, rfl, by decide, rfl⟩

/-- C4: on every successful `releaseFunds` call the source performs the two
external value transfers (platform fee to the fee collector, net amount to
the recipient) while writing NO storage slot at all: the returned storage
equals the input storage, and in particular no escrow/reserved decrement
appears anywhere in the operation's effect trace, let alone before the
transfers. -/
theorem C4_releaseFunds_transfers_without_bookkeeping (cf : CFState)
    (caller : Addr) (campaignId : Nat) (recipient : Addr) (amount : Int)
    (hadmin : cf.admins caller = true)
    (hexists : (cf.campaigns campaignId).campaignId ≠ 0)
    (hrecipient : recipient ≠ 0) (hamount : 0 < amount) :
    CampaignFactory.releaseFunds cf caller campaignId recipient amount =
      .ok (cf,
        [Effect.transfer cf.feeCollector (amount * cf.platformFeePercentage / 10000),
          Effect.transfer recipient (amount - amount * cf.platformFeePercentage / 10000)]) ∧
    ∀ c a, Effect.escrowDecrement c a ∉
      [Effect.transfer cf.feeCollector (amount * cf.platformFeePercentage / 10000),
        Effect.transfer recipient (amount - amount * cf.platformFeePercentage / 10000)] := by
  constructor
  · simp only [CampaignFactory.releaseFunds, hadmin]
    split_ifs <;> simp_all
  · intro c a
    simp

/-- C4 witness: at `cfW` the admin (address 2) releases 100 units to address
3; the effect trace is exactly the 2.5% fee transfer then the net transfer,
with no bookkeeping effect, and the storage is returned unchanged. -/
theorem C4_releaseFunds_witness :
    CampaignFactory.releaseFunds cfW 2 1 3 100 =
      .ok (cfW, [Effect.transfer 8 2, Effect.transfer 3 98]) := by
  have h := (C4_releaseFunds_transfers_without_bookkeeping cfW 2 1 3 100
    (by decide) (by decide) (by decide) (by decide)).1
  rw [h]
  rfl

/-- C2 counterexample: campaign 1 of `cfW` is Active with escrow 10, the
caller is the owner (address 5), the requested amount 5 is within escrow and
the validity is positive — every condition of the claim holds — yet the call
fails, because the beneficiary is the zero address and the delegated
`mintToken` rejects it.  Success is therefore not exactly "escrow ≥
entitledAmount". -/
theorem C2_zero_beneficiary_fails_despite_escrow :
    (cfW.campaigns 1).status = CampaignStatus.Active ∧
    (cfW.campaigns 1).ngoAddress = 5 ∧
    (5 : Int) ≤ cfW.campaignFunds 1 ∧
    CampaignFactory.issueBeneficiaryToken cfW sbtFresh 9 5 1 0 5 "Srv" 50 0 =
      .error ⟨.validation, "Invalid beneficiary address"⟩ :=
  ⟨by decide, by decide, by decide, rfl⟩

/-- C2 (amended): for an existing Active campaign whose owner is the caller,
with positive amount and validity, a NONZERO beneficiary, and the deployment
wiring in place (factory holds the minter role, token contract unpaused, next
token id unminted), `issueBeneficiaryToken` succeeds exactly when the
available escrow is at least the entitled amount; requesting exactly the
remaining escrow succeeds and one unit more fails with a resource error; on
success it delegates minting (a fresh Active token with the requested fields,
held by the beneficiary), decrements escrow by exactly the entitled amount
and increments the beneficiary count. -/
theorem C2_issueBeneficiaryToken_escrow_gate (cf : CFState) (sbt : SBTState)
    (factory caller : Addr) (campaignId : Nat) (beneficiary : Addr)
    (entitledAmount : Int) (serviceType : String) (validityPeriod : Nat)
    (now : Nat)
    (hex : (cf.campaigns campaignId).campaignId ≠ 0)
    (hown : (cf.campaigns campaignId).ngoAddress = caller)
    (hact : (cf.campaigns campaignId).status = CampaignStatus.Active)
    (hamt : 0 < entitledAmount) (hvp : 0 < validityPeriod)
    (hben : beneficiary ≠ 0)
    (hminter : sbt.minters factory = true) (hpause : sbt.paused = false)
    (hfresh : sbt.owners sbt.tokenIdCounter = 0) :
    ((∃ r, CampaignFactory.issueBeneficiaryToken cf sbt factory caller
        campaignId beneficiary entitledAmount serviceType validityPeriod now = .ok r) ↔
      entitledAmount ≤ cf.campaignFunds campaignId) ∧
    (∀ r, CampaignFactory.issueBeneficiaryToken cf sbt factory caller campaignId
          beneficiary entitledAmount serviceType validityPeriod now = .ok r →
      r.1.campaignFunds campaignId = cf.campaignFunds campaignId - entitledAmount ∧
      (r.1.campaigns campaignId).totalBeneficiaries =
        (cf.campaigns campaignId).totalBeneficiaries + 1 ∧
      r.2.2 = sbt.tokenIdCounter ∧
      r.2.1.owners r.2.2 = beneficiary ∧
      r.2.1.tokenMetadata r.2.2 =
        ⟨r.2.2, beneficiary, campaignId, entitledAmount, serviceType, now,
          now + validityPeriod, false, 0, 0, "", TokenStatus.Active⟩ ∧
      r.2.1.campaignTokens campaignId = sbt.campaignTokens campaignId ++ [r.2.2]) ∧
    (0 < cf.campaignFunds campaignId →
      ∃ r, CampaignFactory.issueBeneficiaryToken cf sbt factory caller
        campaignId beneficiary (cf.campaignFunds campaignId) serviceType validityPeriod now = .ok r) ∧
    (∃ e, CampaignFactory.issueBeneficiaryToken cf sbt factory caller
        campaignId beneficiary (cf.campaignFunds campaignId + 1) serviceType validityPeriod now = .error e ∧
      e.kind = ErrKind.resource) := by
  have hmint : ∀ amt : Int, 0 < amt →
      SoulboundToken.mintToken sbt factory beneficiary campaignId amt
        serviceType validityPeriod now =
      .ok ({ sbt with
        tokenIdCounter := sbt.tokenIdCounter + 1
        tokenMetadata := upd sbt.tokenMetadata sbt.tokenIdCounter
          ⟨sbt.tokenIdCounter, beneficiary, campaignId, amt, serviceType, now, now + validityPeriod, false, 0, 0, "", .Active⟩
        owners := upd sbt.owners sbt.tokenIdCounter beneficiary
        beneficiaryTokens := upd sbt.beneficiaryTokens beneficiary (sbt.beneficiaryTokens beneficiary ++ [sbt.tokenIdCounter])
        campaignTokens := upd sbt.campaignTokens campaignId (sbt.campaignTokens campaignId ++ [sbt.tokenIdCounter]) },
        sbt.tokenIdCounter) := by
    intro amt hamt2
    simp only [SoulboundToken.mintToken, hminter, hpause]
    split_ifs <;> simp_all
  refine ⟨?_, ?_, ?_, ?_⟩
  · constructor
    · rintro ⟨r, h⟩
      simp only [CampaignFactory.issueBeneficiaryToken] at h
      split_ifs at h with h1 h2 h3 h4 <;>
        first
          | omega
          | cases h
          | (exfalso; revert h; cases hm : SoulboundToken.mintToken sbt factory
              beneficiary campaignId entitledAmount serviceType validityPeriod now <;> simp_all)
    · intro hfunds
      simp only [CampaignFactory.issueBeneficiaryToken]
      split_ifs <;>
        first
          | simp_all
          | (rw [hmint entitledAmount hamt]; exact ⟨_, rfl⟩)
  · intro r h
    simp only [CampaignFactory.issueBeneficiaryToken] at h
    split_ifs at h with h1 h2 h3 h4
    all_goals first
      | cases h
      | (rw [hmint entitledAmount hamt] at h
         injection h with h
         subst h
         refine ⟨by simp [upd], by simp [upd], rfl, by simp [upd], by simp [upd], by simp [upd]⟩)
  · intro hfunds
    simp only [CampaignFactory.issueBeneficiaryToken]
    split_ifs <;>
      first
        | simp_all
        | omega
        | (rw [hmint (cf.campaignFunds campaignId) hfunds]; exact ⟨_, rfl⟩)
  · simp only [CampaignFactory.issueBeneficiaryToken]
    split_ifs with h1 h2 h3 h4 <;>
      first
        | simp_all
        | omega
        | exact ⟨_, rfl, rfl⟩

/-- C2 witness: at `cfW` (escrow 10) with the fresh token contract, the owner
issues a token for exactly the remaining escrow and it succeeds; for one unit
more it fails with a resource error. -/
theorem C2_issueBeneficiaryToken_witness :
    (∃ r, CampaignFactory.issueBeneficiaryToken cfW sbtFresh 9 5 1 4
      (cfW.campaignFunds 1) "Srv" 50 0 = .ok r) ∧
    (∃ e, CampaignFactory.issueBeneficiaryToken cfW sbtFresh 9 5 1 4
      (cfW.campaignFunds 1 + 1) "Srv" 50 0 = .error e ∧ e.kind = ErrKind.resource) :=
  ⟨(C2_issueBeneficiaryToken_escrow_gate cfW sbtFresh 9 5 1 4 10 "Srv" 50 0
      (by decide) (by decide) (by decide) (by decide) (by decide) (by decide)
      (by decide) (by decide) (by decide)).2.2.1 (by decide),
    (C2_issueBeneficiaryToken_escrow_gate cfW sbtFresh 9 5 1 4 10 "Srv" 50 0
      (by decide) (by decide) (by decide) (by decide) (by decide) (by decide)
      (by decide) (by decide) (by decide)).2.2.2⟩

/-- Helper: a successful `mintToken` changes ownership only at the freshly
minted id, which was unowned before; every token someone already holds keeps
its owner and its recorded beneficiary. -/
theorem mintToken_preserves_existing (st st2 : SBTState) (caller beneficiary : Addr)
    (campaignId : Nat) (entitledAmount : Int) (serviceType : String)
    (validityPeriod now : Nat) (tokenId : Nat)
    (h : SoulboundToken.mintToken st caller beneficiary campaignId
      entitledAmount serviceType validityPeriod now = .ok (st2, tokenId))
    (t : Nat) (ht : st.owners t ≠ 0) :
    st2.owners t = st.owners t ∧
    (st2.tokenMetadata t).beneficiary = (st.tokenMetadata t).beneficiary := by
  simp only [SoulboundToken.mintToken] at h
  split_ifs at h with h1 h2 h3 h4 h5 h6
  all_goals cases h
  have htne : t ≠ st.tokenIdCounter := by
    intro he
    subst he
    simp_all
  constructor
  · simp [upd, htne]
  · simp [upd, htne]

/-- Helper: a successful `redeemToken`, `revokeToken` or `markExpired` writes
only the metadata of the affected token, preserving its `beneficiary` and
`entitledAmount` fields and the whole owner map. -/
theorem sbt_statusops_preserve (st st2 : SBTState) (caller : Addr)
    (tokenId : Nat) (proofOfServiceHash reason : String) (now : Nat)
    (h : SoulboundToken.redeemToken st caller tokenId proofOfServiceHash now = .ok st2 ∨
      SoulboundToken.revokeToken st caller tokenId reason = .ok st2 ∨
      SoulboundToken.markExpired st tokenId now = .ok st2) :
    st2.owners = st.owners ∧
    (∀ u, (st2.tokenMetadata u).beneficiary = (st.tokenMetadata u).beneficiary ∧
      (st2.tokenMetadata u).entitledAmount = (st.tokenMetadata u).entitledAmount) ∧
    st2.campaignTokens = st.campaignTokens ∧
    st2.tokenIdCounter = st.tokenIdCounter := by
  rcases h with h | h | h
  · simp only [SoulboundToken.redeemToken] at h
    split_ifs at h
    all_goals cases h
    refine ⟨rfl, fun u => ?_, rfl, rfl⟩
    by_cases hu : u = tokenId <;> simp [upd, hu]
  · simp only [SoulboundToken.revokeToken] at h
    split_ifs at h
    all_goals cases h
    refine ⟨rfl, fun u => ?_, rfl, rfl⟩
    by_cases hu : u = tokenId <;> simp [upd, hu]
  · simp only [SoulboundToken.markExpired] at h
    split_ifs at h
    all_goals cases h
    refine ⟨rfl, fun u => ?_, rfl, rfl⟩
    by_cases hu : u = tokenId <;> simp [upd, hu]

/-- C9: each of `transferFrom`, `safeTransferFrom`, `approve` and
`setApprovalForAll` on the entitlement token fails unconditionally — they are
`pure` reverts, independent of any state, caller or capability — and
consequently no operation of the deployed system ever changes the owner or
the recorded beneficiary of an existing token: the holder recorded at mint
time never changes. -/
theorem C9_soulbound_nontransferable (fromAddr toAddr operator : Addr)
    (tokenId : Nat) (data : String) (approved : Bool) (sys : SysState)
    (op : SysOp) (now : Nat) (t : Nat) (hexist : sys.sbt.owners t ≠ 0) :
    (∃ e, SoulboundToken.transferFrom fromAddr toAddr tokenId = .error e) ∧
    (∃ e, SoulboundToken.safeTransferFrom fromAddr toAddr tokenId data = .error e) ∧
    (∃ e, SoulboundToken.approve toAddr tokenId = .error e) ∧
    (∃ e, SoulboundToken.setApprovalForAll operator approved = .error e) ∧
    (applySys sys op now).sbt.owners t = sys.sbt.owners t ∧
    ((applySys sys op now).sbt.tokenMetadata t).beneficiary =
      (sys.sbt.tokenMetadata t).beneficiary := by
  refine ⟨⟨_, rfl⟩, ⟨_, rfl⟩, ⟨_, rfl⟩, ⟨_, rfl⟩, ?_⟩
  unfold applySys sysExec
  cases op
  case issueBeneficiaryToken caller campaignId beneficiary entitledAmount serviceType validityPeriod =>
    cases hx : CampaignFactory.issueBeneficiaryToken sys.cf sys.sbt sys.factoryAddr
        caller campaignId beneficiary entitledAmount serviceType validityPeriod now with
    | error e => simp [hx]
    | ok r =>
      simp only [hx]
      simp only [CampaignFactory.issueBeneficiaryToken] at hx
      split_ifs at hx
      all_goals first
        | cases hx
        | (revert hx
           cases hm : SoulboundToken.mintToken sys.sbt sys.factoryAddr beneficiary
               campaignId entitledAmount serviceType validityPeriod now with
           | error e => intro hx; cases hx
           | ok rm =>
             intro hx
             cases hx
             exact mintToken_preserves_existing sys.sbt rm.1 sys.factoryAddr beneficiary
               campaignId entitledAmount serviceType validityPeriod now rm.2 hm t hexist)
  case redeemToken caller tokenId2 proofOfServiceHash =>
    cases hx : SoulboundToken.redeemToken sys.sbt caller tokenId2 proofOfServiceHash now with
    | error e => simp [hx]
    | ok sbt2 =>
      simp only [hx]
      obtain ⟨h1, h2, -, -⟩ := sbt_statusops_preserve sys.sbt sbt2 caller tokenId2
        proofOfServiceHash "" now (Or.inl hx)
      exact ⟨by rw [h1], (h2 t).1⟩
  case revokeToken caller tokenId2 reason =>
    cases hx : SoulboundToken.revokeToken sys.sbt caller tokenId2 reason with
    | error e => simp [hx]
    | ok sbt2 =>
      simp only [hx]
      obtain ⟨h1, h2, -, -⟩ := sbt_statusops_preserve sys.sbt sbt2 caller tokenId2
        "" reason now (Or.inr (Or.inl hx))
      exact ⟨by rw [h1], (h2 t).1⟩
  case markExpired tokenId2 =>
    cases hx : SoulboundToken.markExpired sys.sbt tokenId2 now with
    | error e => simp [hx]
    | ok sbt2 =>
      simp only [hx]
      obtain ⟨h1, h2, -, -⟩ := sbt_statusops_preserve sys.sbt sbt2 0 tokenId2
        "" "" now (Or.inr (Or.inr hx))
      exact ⟨by rw [h1], (h2 t).1⟩
  case registerNGO caller ngoAddress name registrationNumber country category kycDocumentHash =>
    cases hx : NGORegistry.registerNGO sys.reg caller ngoAddress name
        registrationNumber country category kycDocumentHash now <;> simp [hx]
  case verifyNGO caller ngoId =>
    cases hx : NGORegistry.verifyNGO sys.reg caller ngoId now <;> simp [hx]
  case suspendNGOThroughGovernance caller ngoId reason =>
    cases hx : NGORegistry.suspendNGOThroughGovernance sys.reg sys.gov caller ngoId reason <;> simp [hx]
  case createVerificationProposal caller ngoId description evidenceHash =>
    cases hx : NGOGovernance.createVerificationProposal sys.gov caller ngoId description evidenceHash now <;> simp [hx]
  case challengeNGO caller ngoId description evidenceHash =>
    cases hx : NGOGovernance.challengeNGO sys.gov caller ngoId description evidenceHash now <;> simp [hx]
  case castVote caller proposalId voteType =>
    cases hx : NGOGovernance.castVote sys.gov caller proposalId voteType now <;> simp [hx]
  case executeProposal proposalId =>
    cases hx : NGOGovernance.executeProposal sys.gov proposalId now <;> simp [hx]
  case initializeReputation caller user =>
    cases hx : NGOGovernance.initializeReputation sys.gov caller user now <;> simp [hx]
  case createCampaign caller title description category targetAmount duration documentsHash =>
    cases hx : CampaignFactory.createCampaign sys.cf sys.reg caller title description category targetAmount duration documentsHash now <;> simp [hx]
  case addMilestone caller campaignId description targetAmount deadline =>
    cases hx : CampaignFactory.addMilestone sys.cf caller campaignId description targetAmount deadline <;> simp [hx]
  case donate caller campaignId value =>
    cases hx : CampaignFactory.donate sys.cf caller campaignId value now <;> simp [hx]
  case releaseFunds caller campaignId recipient amount =>
    cases hx : CampaignFactory.releaseFunds sys.cf caller campaignId recipient amount <;> simp [hx]
  case completeMilestone caller campaignId milestoneIndex proofHash =>
    cases hx : CampaignFactory.completeMilestone sys.cf caller campaignId milestoneIndex proofHash now <;> simp [hx]
  case pauseCampaign caller campaignId =>
    cases hx : CampaignFactory.pauseCampaign sys.cf caller campaignId <;> simp [hx]
  case resumeCampaign caller campaignId =>
    cases hx : CampaignFactory.resumeCampaign sys.cf caller campaignId <;> simp [hx]
  case transferFrom fromAddr2 toAddr2 tokenId2 =>
    simp [SoulboundToken.transferFrom]
  case safeTransferFrom fromAddr2 toAddr2 tokenId2 data2 =>
    simp [SoulboundToken.safeTransferFrom]
  case approve toAddr2 tokenId2 =>
    simp [SoulboundToken.approve]
  case setApprovalForAll operator2 approved2 =>
    simp [SoulboundToken.setApprovalForAll]

/-- C9 witness: at a concrete system state holding the owned token 0 of
`sbtW`, the transfer overrides fail and a `markExpired` step preserves the
owner and beneficiary of token 0. -/
theorem C9_soulbound_nontransferable_witness :
    (∃ e, SoulboundToken.transferFrom 5 6 0 = .error e) ∧
    (∃ e, SoulboundToken.safeTransferFrom 5 6 0 "" = .error e) ∧
    (∃ e, SoulboundToken.approve 6 0 = .error e) ∧
    (∃ e, SoulboundToken.setApprovalForAll 6 true = .error e) ∧
    (applySys ⟨regC5, govC5, cfW, sbtW, 9⟩ (SysOp.markExpired 0) 200).sbt.owners 0 =
      sbtW.owners 0 ∧
    ((applySys ⟨regC5, govC5, cfW, sbtW, 9⟩ (SysOp.markExpired 0) 200).sbt.tokenMetadata 0).beneficiary =
      (sbtW.tokenMetadata 0).beneficiary :=
  C9_soulbound_nontransferable 5 6 6 0 "" true ⟨regC5, govC5, cfW, sbtW, 9⟩
    (SysOp.markExpired 0) 200 0 (by decide)

/-- Helper: `entitledSum` only looks at the `entitledAmount` fields of the
listed tokens. -/
theorem entitledSum_congr (sbt1 sbt2 : SBTState) (ts : List Nat)
    (h : ∀ t ∈ ts, (sbt2.tokenMetadata t).entitledAmount =
      (sbt1.tokenMetadata t).entitledAmount) :
    entitledSum sbt2 ts = entitledSum sbt1 ts := by
  unfold entitledSum
  rw [List.map_congr_left h]

/-- Helper: appending one token adds its entitled amount to the sum. -/
theorem entitledSum_append (sbt : SBTState) (ts : List Nat) (t : Nat) :
    entitledSum sbt (ts ++ [t]) =
      entitledSum sbt ts + (sbt.tokenMetadata t).entitledAmount := by
  simp [entitledSum]

/-- The inductive invariant behind the escrow accounting: (1) every
campaign's funds are nonnegative and equal its raised amount minus the
entitled amounts of all tokens minted against it; (2) every recorded token id
is below the token counter; (3) ids above the campaign counter are untouched
storage. -/
def SysInv (sys : SysState) : Prop :=
  (∀ c, 0 ≤ sys.cf.campaignFunds c ∧
    sys.cf.campaignFunds c =
      (sys.cf.campaigns c).raisedAmount - entitledSum sys.sbt (sys.sbt.campaignTokens c)) ∧
  (∀ c t, t ∈ sys.sbt.campaignTokens c → t < sys.sbt.tokenIdCounter) ∧
  (∀ c, sys.cf.campaignIdCounter < c →
    (sys.cf.campaigns c).campaignId = 0 ∧ (sys.cf.campaigns c).raisedAmount = 0 ∧
    sys.cf.campaignFunds c = 0 ∧ sys.sbt.campaignTokens c = [])

/-- The invariant holds right after deployment. -/
theorem sysInv_init (deployer factory feeCollector : Addr)
    (redeemers : Addr → Bool) : SysInv (sysInit deployer factory feeCollector redeemers) := by
  refine ⟨fun c => ⟨le_refl 0, ?_⟩, fun c t ht => ?_, fun c _ => ⟨rfl, rfl, rfl, rfl⟩⟩
  · simp [sysInit, entitledSum, Campaign.zero]
  · simp [sysInit] at ht

/-- Helper: running a list of operations preserves reachability. -/
theorem reachable_runSys (sys : SysState) (ops : List (SysOp × Nat))
    (h : SysReachable sys) : SysReachable (runSys sys ops) := by
  induction ops generalizing sys with
  | nil => exact h
  | cons p ps ih => exact ih _ (SysReachable.step sys p.1 p.2 h)

/-- The invariant is preserved by every operation of the system. -/
theorem sysInv_step (sys : SysState) (op : SysOp) (now : Nat) (h : SysInv sys) :
    SysInv (applySys sys op now) := by
  obtain ⟨ha, hb, hc⟩ := h
  unfold applySys sysExec
  cases op
  case registerNGO caller ngoAddress name registrationNumber country category kycDocumentHash =>
    cases hx : NGORegistry.registerNGO sys.reg caller ngoAddress name
        registrationNumber country category kycDocumentHash now <;>
      simp only [hx] <;> exact ⟨ha, hb, hc⟩
  case verifyNGO caller ngoId =>
    cases hx : NGORegistry.verifyNGO sys.reg caller ngoId now <;>
      simp only [hx] <;> exact ⟨ha, hb, hc⟩
  case suspendNGOThroughGovernance caller ngoId reason =>
    cases hx : NGORegistry.suspendNGOThroughGovernance sys.reg sys.gov caller ngoId reason <;>
      simp only [hx] <;> exact ⟨ha, hb, hc⟩
  case createVerificationProposal caller ngoId description evidenceHash =>
    cases hx : NGOGovernance.createVerificationProposal sys.gov caller ngoId description evidenceHash now <;>
      simp only [hx] <;> exact ⟨ha, hb, hc⟩
  case challengeNGO caller ngoId description evidenceHash =>
    cases hx : NGOGovernance.challengeNGO sys.gov caller ngoId description evidenceHash now <;>
      simp only [hx] <;> exact ⟨ha, hb, hc⟩
  case castVote caller proposalId voteType =>
    cases hx : NGOGovernance.castVote sys.gov caller proposalId voteType now <;>
      simp only [hx] <;> exact ⟨ha, hb, hc⟩
  case executeProposal proposalId =>
    cases hx : NGOGovernance.executeProposal sys.gov proposalId now <;>
      simp only [hx] <;> exact ⟨ha, hb, hc⟩
  case initializeReputation caller user =>
    cases hx : NGOGovernance.initializeReputation sys.gov caller user now <;>
      simp only [hx] <;> exact ⟨ha, hb, hc⟩
  case completeMilestone caller campaignId milestoneIndex proofHash =>
    cases hx : CampaignFactory.completeMilestone sys.cf caller campaignId milestoneIndex proofHash now with
    | error e => simp only [hx]; exact ⟨ha, hb, hc⟩
    | ok cf2 =>
      simp only [hx]
      simp only [CampaignFactory.completeMilestone] at hx
      split_ifs at hx
      all_goals cases hx
      exact ⟨ha, hb, hc⟩
  case transferFrom fromAddr toAddr tokenId =>
    exact ⟨ha, hb, hc⟩
  case safeTransferFrom fromAddr toAddr tokenId data =>
    exact ⟨ha, hb, hc⟩
  case approve toAddr tokenId =>
    exact ⟨ha, hb, hc⟩
  case setApprovalForAll operator approved =>
    exact ⟨ha, hb, hc⟩
  case releaseFunds caller campaignId recipient amount =>
    cases hx : CampaignFactory.releaseFunds sys.cf caller campaignId recipient amount with
    | error e => simp only [hx]; exact ⟨ha, hb, hc⟩
    | ok r =>
      simp only [hx]
      simp only [CampaignFactory.releaseFunds] at hx
      split_ifs at hx
      all_goals cases hx
      exact ⟨ha, hb, hc⟩
  case pauseCampaign caller campaignId =>
    cases hx : CampaignFactory.pauseCampaign sys.cf caller campaignId with
    | error e => simp only [hx]; exact ⟨ha, hb, hc⟩
    | ok cf2 =>
      simp only [hx]
      simp only [CampaignFactory.pauseCampaign] at hx
      split_ifs at hx with h1 h2 h3
      all_goals cases hx
      have hle : ¬ sys.cf.campaignIdCounter < campaignId := fun hgt => h1 (hc campaignId hgt).1
      refine ⟨fun c => ?_, hb, fun c hcgt => ?_⟩
      · by_cases hcc : c = campaignId
        · subst hcc
          simpa [upd] using ha c
        · simpa [upd, hcc] using ha c
      · have hne : c ≠ campaignId := fun he => hle (he ▸ hcgt)
        simpa [upd, hne] using hc c hcgt
  case resumeCampaign caller campaignId =>
    cases hx : CampaignFactory.resumeCampaign sys.cf caller campaignId with
    | error e => simp only [hx]; exact ⟨ha, hb, hc⟩
    | ok cf2 =>
      simp only [hx]
      simp only [CampaignFactory.resumeCampaign] at hx
      split_ifs at hx with h1 h2 h3
      all_goals cases hx
      have hle : ¬ sys.cf.campaignIdCounter < campaignId := fun hgt => h1 (hc campaignId hgt).1
      refine ⟨fun c => ?_, hb, fun c hcgt => ?_⟩
      · by_cases hcc : c = campaignId
        · subst hcc
          simpa [upd] using ha c
        · simpa [upd, hcc] using ha c
      · have hne : c ≠ campaignId := fun he => hle (he ▸ hcgt)
        simpa [upd, hne] using hc c hcgt
  case addMilestone caller campaignId description targetAmount deadline =>
    cases hx : CampaignFactory.addMilestone sys.cf caller campaignId description targetAmount deadline with
    | error e => simp only [hx]; exact ⟨ha, hb, hc⟩
    | ok cf2 =>
      simp only [hx]
      simp only [CampaignFactory.addMilestone] at hx
      split_ifs at hx with h1 h2 h3
      all_goals cases hx
      have hle : ¬ sys.cf.campaignIdCounter < campaignId := fun hgt => h1 (hc campaignId hgt).1
      refine ⟨fun c => ?_, hb, fun c hcgt => ?_⟩
      · by_cases hcc : c = campaignId
        · subst hcc
          simpa [upd] using ha c
        · simpa [upd, hcc] using ha c
      · have hne : c ≠ campaignId := fun he => hle (he ▸ hcgt)
        simpa [upd, hne] using hc c hcgt
  case redeemToken caller tokenId proofOfServiceHash =>
    cases hx : SoulboundToken.redeemToken sys.sbt caller tokenId proofOfServiceHash now with
    | error e => simp only [hx]; exact ⟨ha, hb, hc⟩
    | ok sbt2 =>
      simp only [hx]
      obtain ⟨-, hmeta, hct, hcnt⟩ := sbt_statusops_preserve sys.sbt sbt2 caller tokenId
        proofOfServiceHash "" now (Or.inl hx)
      refine ⟨fun c => ?_, fun c t ht => ?_, fun c hcgt => ?_⟩
      · have hsum : entitledSum sbt2 (sbt2.campaignTokens c) =
            entitledSum sys.sbt (sys.sbt.campaignTokens c) := by
          rw [hct]
          exact entitledSum_congr sys.sbt sbt2 _ (fun t _ => (hmeta t).2)
        rw [hsum]
        exact ha c
      · rw [hcnt]
        rw [hct] at ht
        exact hb c t ht
      · rw [hct]
        exact hc c hcgt
  case revokeToken caller tokenId reason =>
    cases hx : SoulboundToken.revokeToken sys.sbt caller tokenId reason with
    | error e => simp only [hx]; exact ⟨ha, hb, hc⟩
    | ok sbt2 =>
      simp only [hx]
      obtain ⟨-, hmeta, hct, hcnt⟩ := sbt_statusops_preserve sys.sbt sbt2 caller tokenId
        "" reason now (Or.inr (Or.inl hx))
      refine ⟨fun c => ?_, fun c t ht => ?_, fun c hcgt => ?_⟩
      · have hsum : entitledSum sbt2 (sbt2.campaignTokens c) =
            entitledSum sys.sbt (sys.sbt.campaignTokens c) := by
          rw [hct]
          exact entitledSum_congr sys.sbt sbt2 _ (fun t _ => (hmeta t).2)
        rw [hsum]
        exact ha c
      · rw [hcnt]
        rw [hct] at ht
        exact hb c t ht
      · rw [hct]
        exact hc c hcgt
  case markExpired tokenId =>
    cases hx : SoulboundToken.markExpired sys.sbt tokenId now with
    | error e => simp only [hx]; exact ⟨ha, hb, hc⟩
    | ok sbt2 =>
      simp only [hx]
      obtain ⟨-, hmeta, hct, hcnt⟩ := sbt_statusops_preserve sys.sbt sbt2 0 tokenId
        "" "" now (Or.inr (Or.inr hx))
      refine ⟨fun c => ?_, fun c t ht => ?_, fun c hcgt => ?_⟩
      · have hsum : entitledSum sbt2 (sbt2.campaignTokens c) =
            entitledSum sys.sbt (sys.sbt.campaignTokens c) := by
          rw [hct]
          exact entitledSum_congr sys.sbt sbt2 _ (fun t _ => (hmeta t).2)
        rw [hsum]
        exact ha c
      · rw [hcnt]
        rw [hct] at ht
        exact hb c t ht
      · rw [hct]
        exact hc c hcgt
  case createCampaign caller title description category targetAmount duration documentsHash =>
    cases hx : CampaignFactory.createCampaign sys.cf sys.reg caller title description category targetAmount duration documentsHash now with
    | error e => simp only [hx]; exact ⟨ha, hb, hc⟩
    | ok r =>
      simp only [hx]
      simp only [CampaignFactory.createCampaign] at hx
      split_ifs at hx
      all_goals cases hx
      refine ⟨fun c => ?_, hb, fun c hcgt => ?_⟩
      · by_cases hcc : c = sys.cf.campaignIdCounter + 1
        · subst hcc
          obtain ⟨-, -, hf0, ht0⟩ := hc (sys.cf.campaignIdCounter + 1) (Nat.lt_succ_self _)
          simp [upd, hf0, ht0, entitledSum]
        · simpa [upd, hcc] using ha c
      · have hcgt2 : sys.cf.campaignIdCounter + 1 < c := hcgt
        have hgt2 : sys.cf.campaignIdCounter < c := by omega
        have hne : c ≠ sys.cf.campaignIdCounter + 1 := by omega
        simpa [upd, hne] using hc c hgt2
  case donate caller campaignId value =>
    cases hx : CampaignFactory.donate sys.cf caller campaignId value now with
    | error e => simp only [hx]; exact ⟨ha, hb, hc⟩
    | ok cf2 =>
      simp only [hx]
      simp only [CampaignFactory.donate] at hx
      split_ifs at hx with h1 h2 h3 h4 h5
      all_goals cases hx
      all_goals
        have hle : ¬ sys.cf.campaignIdCounter < campaignId := fun hgt => h2 (hc campaignId hgt).1
      all_goals refine ⟨fun c => ?_, hb, fun c hcgt => ?_⟩
      all_goals first
        | (have hne : c ≠ campaignId := fun heq => hle (heq ▸ hcgt)
           simpa [upd, hne] using hc c hcgt)
        | (obtain ⟨hn, he⟩ := ha c
           constructor
           · by_cases hcc : c = campaignId
             · subst hcc
               simp only [upd_same]
               omega
             · simpa [upd, hcc] using hn
           · by_cases hcc : c = campaignId
             · subst hcc
               simp only [upd_same]
               omega
             · simpa [upd, hcc] using he)
  case issueBeneficiaryToken caller campaignId beneficiary entitledAmount serviceType validityPeriod =>
    cases hx : CampaignFactory.issueBeneficiaryToken sys.cf sys.sbt sys.factoryAddr caller campaignId beneficiary entitledAmount serviceType validityPeriod now with
    | error e => simp only [hx]; exact ⟨ha, hb, hc⟩
    | ok r =>
      simp only [hx]
      simp only [CampaignFactory.issueBeneficiaryToken] at hx
      split_ifs at hx with h1 h2 h3 h4 h5 h6
      all_goals try cases hx
      revert hx
      cases hm : SoulboundToken.mintToken sys.sbt sys.factoryAddr beneficiary campaignId entitledAmount serviceType validityPeriod now with
      | error e => intro hx; cases hx
      | ok rm =>
        intro hx
        cases hx
        obtain ⟨sbt2, tid⟩ := rm
        simp only [SoulboundToken.mintToken] at hm
        split_ifs at hm
        all_goals cases hm
        have hle : ¬ sys.cf.campaignIdCounter < campaignId := fun hgt => h1 (hc campaignId hgt).1
        have hfresh : ∀ c t, t ∈ sys.sbt.campaignTokens c → t ≠ sys.sbt.tokenIdCounter :=
          fun c t ht => Nat.ne_of_lt (hb c t ht)
        refine ⟨fun c => ?_, fun c t ht => ?_, fun c hcgt => ?_⟩
        · by_cases hcc : c = campaignId
          · subst hcc
            obtain ⟨hn, he⟩ := ha c
            have hsum : entitledSum
                ({ sys.sbt with
                    tokenIdCounter := sys.sbt.tokenIdCounter + 1
                    tokenMetadata := upd sys.sbt.tokenMetadata sys.sbt.tokenIdCounter
                      ⟨sys.sbt.tokenIdCounter, beneficiary, c, entitledAmount, serviceType, now, now + validityPeriod, false, 0, 0, "", .Active⟩
                    owners := upd sys.sbt.owners sys.sbt.tokenIdCounter beneficiary
                    beneficiaryTokens := upd sys.sbt.beneficiaryTokens beneficiary (sys.sbt.beneficiaryTokens beneficiary ++ [sys.sbt.tokenIdCounter])
                    campaignTokens := upd sys.sbt.campaignTokens c (sys.sbt.campaignTokens c ++ [sys.sbt.tokenIdCounter]) } : SBTState)
                (sys.sbt.campaignTokens c) = entitledSum sys.sbt (sys.sbt.campaignTokens c) := by
              refine entitledSum_congr _ _ _ (fun t ht => ?_)
              simp [upd, hfresh c t ht]
            constructor
            · simp only [upd_same]
              omega
            · simp only [upd_same, entitledSum_append, hsum]
              omega
          · obtain ⟨hn, he⟩ := ha c
            have hsum : entitledSum
                ({ sys.sbt with
                    tokenIdCounter := sys.sbt.tokenIdCounter + 1
                    tokenMetadata := upd sys.sbt.tokenMetadata sys.sbt.tokenIdCounter
                      ⟨sys.sbt.tokenIdCounter, beneficiary, campaignId, entitledAmount, serviceType, now, now + validityPeriod, false, 0, 0, "", .Active⟩
                    owners := upd sys.sbt.owners sys.sbt.tokenIdCounter beneficiary
                    beneficiaryTokens := upd sys.sbt.beneficiaryTokens beneficiary (sys.sbt.beneficiaryTokens beneficiary ++ [sys.sbt.tokenIdCounter])
                    campaignTokens := upd sys.sbt.campaignTokens campaignId (sys.sbt.campaignTokens campaignId ++ [sys.sbt.tokenIdCounter]) } : SBTState)
                (sys.sbt.campaignTokens c) = entitledSum sys.sbt (sys.sbt.campaignTokens c) := by
              refine entitledSum_congr _ _ _ (fun t ht => ?_)
              simp [upd, hfresh c t ht]
            constructor
            · simpa [upd, hcc] using hn
            · simpa [upd, hcc, hsum] using he
        · show t < sys.sbt.tokenIdCounter + 1
          simp only [upd] at ht
          by_cases hcc : c = campaignId
          · rw [if_pos hcc] at ht
            rcases List.mem_append.mp ht with ht2 | ht2
            · exact Nat.lt_succ_of_lt (hb c t (by rwa [hcc]))
            · simp at ht2
              omega
          · rw [if_neg hcc] at ht
            exact Nat.lt_succ_of_lt (hb c t ht)
        · have hne : c ≠ campaignId := fun heq => hle (heq ▸ hcgt)
          obtain ⟨ha1, ha2, ha3, ha4⟩ := hc c hcgt
          exact ⟨by simpa [upd, hne] using ha1, by simpa [upd, hne] using ha2,
            by simpa [upd, hne] using ha3, by simpa [upd, hne] using ha4⟩

/-- Helper: the invariant holds in every reachable state. -/
theorem sysInv_reachable (sys : SysState) (h : SysReachable sys) : SysInv sys := by
  induction h with
  | init deployer factory feeCollector redeemers => exact sysInv_init deployer factory feeCollector redeemers
  | step sys2 op now _ ih => exact sysInv_step sys2 op now ih

/-- A system trace: register NGO 1 (address 1), verify it, open campaign 1
(target 100), donate 10, issue a 5-unit token to beneficiary 4 (escrow drops
to 5), then the admin revokes that token. -/
def c3ops : List (SysOp × Nat) :=
  [(SysOp.registerNGO 1 1 "NGO" "R1" "IN" "Health" "kyc", 0),
    (SysOp.verifyNGO 2 1, 0),
    (SysOp.createCampaign 1 "T" "D" "C" 100 1000 "doc", 0),
    (SysOp.donate 3 1 10, 1),
    (SysOp.issueBeneficiaryToken 1 1 4 5 "Srv" 50, 1),
    (SysOp.revokeToken 2 0 "bad", 2)]

/-- The state reached by `c3ops` from deployment. -/
def c3state : SysState := runSys (sysInit 2 9 8 (fun a => a = 7)) c3ops

/-- C3 counterexample: in the reachable state `c3state`, campaign 1 has
raised 10 and holds 5 in escrow, and its only token (5 units) is Revoked.
The claimed relation `escrow = raised − sum(entitled of non-revoked tokens)`
would require escrow 10: revoking a token does NOT return its entitled
amount to the campaign's available escrow (`revokeToken` never touches
`campaignFunds`). -/
theorem C3_revocation_does_not_restore_escrow :
    SysReachable c3state ∧
    (c3state.sbt.tokenMetadata 0).status = TokenStatus.Revoked ∧
    (c3state.sbt.tokenMetadata 0).entitledAmount = 5 ∧
    c3state.cf.campaignFunds 1 = 5 ∧
    (c3state.cf.campaigns 1).raisedAmount = 10 ∧
    ¬ claimedEscrowInvariant c3state :=
  ⟨reachable_runSys _ c3ops (SysReachable.init 2 9 8 (fun a => a = 7)),
    by decide, by decide, by decide, by decide,
    fun hclaim => absurd (hclaim 1) (by decide)⟩

/-- C3 (amended): in every reachable state of the system, each campaign's
available escrow is nonnegative and equals its raised amount minus the sum of
the entitled amounts of ALL tokens ever issued against it — revoked tokens
included: revocation is a token-status change only and does not return the
reserved amount to the campaign's escrow. -/
theorem C3_escrow_accounting_invariant (sys : SysState) (h : SysReachable sys) :
    escrowInvariant sys :=
  fun c => ⟨((sysInv_reachable sys h).1 c).1, ((sysInv_reachable sys h).1 c).2⟩

/-- C3 witness: the escrow relation holds at the concrete reachable state
`c3state`. -/
theorem C3_escrow_accounting_invariant_witness : escrowInvariant c3state :=
  C3_escrow_accounting_invariant c3state
    (reachable_runSys _ c3ops (SysReachable.init 2 9 8 (fun a => a = 7)))

/-- Helper: the internal vote-casting step never writes reputations. -/
theorem castVoteInternal_userReputations (st st2 : GovState) (proposalId : Nat)
    (voteType : VoteType) (voter : Addr) (now : Nat)
    (h : NGOGovernance.castVoteInternal st proposalId voteType voter now = .ok st2) :
    st2.userReputations = st.userReputations := by
  simp only [NGOGovernance.castVoteInternal] at h
  split_ifs at h
  all_goals cases h
  all_goals rfl

/-- Helper: proposal creation, challenging and vote casting never write
reputations. -/
theorem gov_proposal_ops_userReputations (st : GovState) (caller : Addr)
    (ngoId proposalId : Nat) (description evidenceHash : String)
    (voteType : VoteType) (now : Nat) :
    (∀ st2 p, NGOGovernance.createVerificationProposal st caller ngoId
      description evidenceHash now = .ok (st2, p) →
      st2.userReputations = st.userReputations) ∧
    (∀ st2 p, NGOGovernance.challengeNGO st caller ngoId description
      evidenceHash now = .ok (st2, p) →
      st2.userReputations = st.userReputations) ∧
    (∀ st2, NGOGovernance.castVote st caller proposalId voteType now = .ok st2 →
      st2.userReputations = st.userReputations) := by
  refine ⟨?_, ?_, ?_⟩
  · intro st2 p h
    simp only [NGOGovernance.createVerificationProposal] at h
    split_ifs at h
    all_goals revert h
    cases hm : NGOGovernance.castVoteInternal
        { st with
          proposalIdCounter := st.proposalIdCounter + 1
          proposals := upd st.proposals (st.proposalIdCounter + 1)
            ({ st.proposals (st.proposalIdCounter + 1) with
                proposalId := st.proposalIdCounter + 1
                ngoId := ngoId
                proposalType := ProposalType.Verification
                proposer := caller
                description := description
                evidenceHash := evidenceHash
                startTime := now
                endTime := now + NGOGovernance.VOTING_DURATION })
          ngoVerificationProposals := upd st.ngoVerificationProposals ngoId (st.proposalIdCounter + 1) }
        (st.proposalIdCounter + 1) VoteType.Upvote caller now with
    | error e => intro h; cases h
    | ok st3 =>
      intro h
      cases h
      have hrep := castVoteInternal_userReputations _ _ _ _ _ _ hm
      exact hrep
  · intro st2 p h
    simp only [NGOGovernance.challengeNGO] at h
    split_ifs at h
    all_goals revert h
    cases hm : NGOGovernance.castVoteInternal
        { st with
          proposalIdCounter := st.proposalIdCounter + 1
          proposals := upd st.proposals (st.proposalIdCounter + 1)
            ({ st.proposals (st.proposalIdCounter + 1) with
                proposalId := st.proposalIdCounter + 1
                ngoId := ngoId
                proposalType := ProposalType.Challenge
                proposer := caller
                description := description
                evidenceHash := evidenceHash
                startTime := now
                endTime := now + NGOGovernance.VOTING_DURATION })
          ngoChallenges := upd st.ngoChallenges ngoId (st.ngoChallenges ngoId ++ [st.proposalIdCounter + 1]) }
        (st.proposalIdCounter + 1) VoteType.Downvote caller now with
    | error e => intro h; cases h
    | ok st3 =>
      intro h
      cases h
      have hrep := castVoteInternal_userReputations _ _ _ _ _ _ hm
      exact hrep
  · intro st2 h
    simp only [NGOGovernance.castVote] at h
    split_ifs at h
    exact castVoteInternal_userReputations _ _ _ _ _ _ h

/-- Helper: `executeProposal` keeps every nonnegative score nonnegative: on
success it adds a positive delta, on failure it subtracts the delta only when
the score strictly exceeds it. -/
theorem executeProposal_score_nonneg (st st2 : GovState) (proposalId : Nat)
    (now : Nat) (u : Addr)
    (h : NGOGovernance.executeProposal st proposalId now = .ok st2)
    (hu : 0 ≤ (st.userReputations u).score) :
    0 ≤ (st2.userReputations u).score := by
  simp only [NGOGovernance.executeProposal] at h
  split_ifs at h
  all_goals cases h
  · simp only [NGOGovernance.updateReputationForSuccess]
    by_cases hp : u = (st.proposals proposalId).proposer
    · simp_all [upd, NGOGovernance.REPUTATION_CHANGE_PER_VOTE]
      omega
    · simpa [upd, hp] using hu
  · simp only [NGOGovernance.updateReputationForSuccess]
    by_cases hp : u = (st.proposals proposalId).proposer
    · simp_all [upd, NGOGovernance.REPUTATION_CHANGE_PER_VOTE]
      omega
    · simpa [upd, hp] using hu
  · simp only [NGOGovernance.updateReputationForFailure]
    split_ifs with hscore
    · by_cases hp : u = (st.proposals proposalId).proposer
      · simp_all [upd, NGOGovernance.REPUTATION_CHANGE_PER_VOTE]
        omega
      · simpa [upd, hp] using hu
    · exact hu

/-- Helper: a successful reputation initialization writes exactly the record
(500, 0, 0, 0, now). -/
theorem initializeReputation_sets_500 (st gov2 : GovState) (caller user : Addr)
    (now : Nat)
    (h : NGOGovernance.initializeReputation st caller user now = .ok gov2) :
    (gov2.userReputations user).score = 500 ∧
    ∀ v, v ≠ user → gov2.userReputations v = st.userReputations v := by
  simp only [NGOGovernance.initializeReputation] at h
  split_ifs at h
  all_goals cases h
  exact ⟨by simp [upd], fun v hv => by simp [upd, hv]⟩

/-- C7 (amended): in every reachable state of the system every governance
reputation score is nonnegative — decrements are guarded — and explicit
initialization creates a score of exactly 500; but the scores are NOT bounded
above by 1000 (see the counterexample theorem: repeated successful proposal
executions push a score past 1000, as no cap is enforced on the increment
path). -/
theorem C7_reputation_nonneg_and_init (sys : SysState) (h : SysReachable sys)
    (u : Addr) :
    0 ≤ (sys.gov.userReputations u).score ∧
    ∀ caller gov2 now2,
      NGOGovernance.initializeReputation sys.gov caller u now2 = .ok gov2 →
      (gov2.userReputations u).score = 500 := by
  refine ⟨?_, fun caller gov2 now2 hini =>
    (initializeReputation_sets_500 sys.gov gov2 caller u now2 hini).1⟩
  induction h with
  | init deployer factory feeCollector redeemers =>
    simp [sysInit, UserReputation.zero]
  | step sys2 op now _ ih =>
    unfold applySys sysExec
    cases op
    case createVerificationProposal caller ngoId description evidenceHash =>
      cases hx : NGOGovernance.createVerificationProposal sys2.gov caller ngoId description evidenceHash now with
      | error e => simpa [hx] using ih
      | ok r =>
        simp only [hx]
        have hrep := (gov_proposal_ops_userReputations sys2.gov caller ngoId 0 description evidenceHash VoteType.Upvote now).1 r.1 r.2 (by rwa [Prod.mk.eta])
        show 0 ≤ (r.1.userReputations u).score
        rw [hrep]
        exact ih
    case challengeNGO caller ngoId description evidenceHash =>
      cases hx : NGOGovernance.challengeNGO sys2.gov caller ngoId description evidenceHash now with
      | error e => simpa [hx] using ih
      | ok r =>
        simp only [hx]
        have hrep := (gov_proposal_ops_userReputations sys2.gov caller ngoId 0 description evidenceHash VoteType.Upvote now).2.1 r.1 r.2 (by rwa [Prod.mk.eta])
        show 0 ≤ (r.1.userReputations u).score
        rw [hrep]
        exact ih
    case castVote caller proposalId voteType =>
      cases hx : NGOGovernance.castVote sys2.gov caller proposalId voteType now with
      | error e => simpa [hx] using ih
      | ok gov2 =>
        simp only [hx]
        have hrep := (gov_proposal_ops_userReputations sys2.gov caller 0 proposalId "" "" voteType now).2.2 gov2 hx
        show 0 ≤ (gov2.userReputations u).score
        rw [hrep]
        exact ih
    case executeProposal proposalId =>
      cases hx : NGOGovernance.executeProposal sys2.gov proposalId now with
      | error e => simpa [hx] using ih
      | ok gov2 =>
        simp only [hx]
        exact executeProposal_score_nonneg sys2.gov gov2 proposalId now u hx ih
    case initializeReputation caller user =>
      cases hx : NGOGovernance.initializeReputation sys2.gov caller user now with
      | error e => simpa [hx] using ih
      | ok gov2 =>
        simp only [hx]
        show 0 ≤ (gov2.userReputations u).score
        by_cases hu : u = user
        · subst hu
          rw [(initializeReputation_sets_500 sys2.gov gov2 caller u now hx).1]
          omega
        · rw [(initializeReputation_sets_500 sys2.gov gov2 caller user now hx).2 u hu]
          exact ih
    case registerNGO caller ngoAddress name registrationNumber country category kycDocumentHash =>
      cases hx : NGORegistry.registerNGO sys2.reg caller ngoAddress name registrationNumber country category kycDocumentHash now <;> simpa [hx] using ih
    case verifyNGO caller ngoId =>
      cases hx : NGORegistry.verifyNGO sys2.reg caller ngoId now <;> simpa [hx] using ih
    case suspendNGOThroughGovernance caller ngoId reason =>
      cases hx : NGORegistry.suspendNGOThroughGovernance sys2.reg sys2.gov caller ngoId reason <;> simpa [hx] using ih
    case createCampaign caller title description category targetAmount duration documentsHash =>
      cases hx : CampaignFactory.createCampaign sys2.cf sys2.reg caller title description category targetAmount duration documentsHash now <;> simpa [hx] using ih
    case addMilestone caller campaignId description targetAmount deadline =>
      cases hx : CampaignFactory.addMilestone sys2.cf caller campaignId description targetAmount deadline <;> simpa [hx] using ih
    case donate caller campaignId value =>
      cases hx : CampaignFactory.donate sys2.cf caller campaignId value now <;> simpa [hx] using ih
    case issueBeneficiaryToken caller campaignId beneficiary entitledAmount serviceType validityPeriod =>
      cases hx : CampaignFactory.issueBeneficiaryToken sys2.cf sys2.sbt sys2.factoryAddr caller campaignId beneficiary entitledAmount serviceType validityPeriod now <;> simpa [hx] using ih
    case releaseFunds caller campaignId recipient amount =>
      cases hx : CampaignFactory.releaseFunds sys2.cf caller campaignId recipient amount <;> simpa [hx] using ih
    case completeMilestone caller campaignId milestoneIndex proofHash =>
      cases hx : CampaignFactory.completeMilestone sys2.cf caller campaignId milestoneIndex proofHash now <;> simpa [hx] using ih
    case pauseCampaign caller campaignId =>
      cases hx : CampaignFactory.pauseCampaign sys2.cf caller campaignId <;> simpa [hx] using ih
    case resumeCampaign caller campaignId =>
      cases hx : CampaignFactory.resumeCampaign sys2.cf caller campaignId <;> simpa [hx] using ih
    case redeemToken caller tokenId proofOfServiceHash =>
      cases hx : SoulboundToken.redeemToken sys2.sbt caller tokenId proofOfServiceHash now <;> simpa [hx] using ih
    case revokeToken caller tokenId reason =>
      cases hx : SoulboundToken.revokeToken sys2.sbt caller tokenId reason <;> simpa [hx] using ih
    case markExpired tokenId =>
      cases hx : SoulboundToken.markExpired sys2.sbt tokenId now <;> simpa [hx] using ih
    case transferFrom fromAddr toAddr tokenId => exact ih
    case safeTransferFrom fromAddr toAddr tokenId data => exact ih
    case approve toAddr tokenId => exact ih
    case setApprovalForAll operator approved => exact ih

/-- C7 witness: in the freshly deployed system every score is nonnegative,
and initializing address 1's reputation yields exactly 500. -/
theorem C7_reputation_nonneg_and_init_witness :
    0 ≤ ((sysInit 2 9 8 (fun a => a = 7)).gov.userReputations 1).score :=
  (C7_reputation_nonneg_and_init (sysInit 2 9 8 (fun a => a = 7))
    (SysReachable.init 2 9 8 (fun a => a = 7)) 1).1

/-- A trace pushing address 1's reputation score beyond 1000: initialize it
(500), create 26 verification proposals (for distinct org ids, each carrying
the proposer's automatic upvote), and execute all 26 after the window: each
passing execution adds 2 × delta = 20, reaching 1020 with no upper cap. -/
def c7ops : List (SysOp × Nat) :=
  ((SysOp.initializeReputation 2 1, 0) ::
    (List.range 26).map fun i => (SysOp.createVerificationProposal 1 (i + 1) "" "", 0)) ++
    (List.range 26).map fun i => (SysOp.executeProposal (i + 1), 604801)

/-- The state reached by `c7ops` from deployment. -/
def c7state : SysState := runSys (sysInit 2 9 8 (fun a => a = 7)) c7ops

set_option maxRecDepth 100000 in
/-- C7 counterexample: the reachable state `c7state` holds a reputation score
of 1020 > 1000 for address 1 — the 0–1000 bound of the claim is not an
invariant of the code, which never caps the increment on successful
execution. -/
theorem C7_score_exceeds_1000 :
    SysReachable c7state ∧ (c7state.gov.userReputations 1).score = 1020 ∧
    ¬ ((c7state.gov.userReputations 1).score ≤ 1000) :=
  ⟨reachable_runSys _ c7ops (SysReachable.init 2 9 8 (fun a => a = 7)),
    by decide, by decide⟩

end Charity
